import Mathlib

/-!
# Win32 pipe endpoints of APR (`file_io/win32/pipe.c`)

A shallow embedding of `pipe.c`.  The operating system is an oracle: every
system call that the C code makes takes its outcome from a record supplied by
the caller of the model, and every call made is appended to a list of `Call`s,
oldest first.  Native handles are abstract objects: a successful `socket`,
`accept`, `CreateNamedPipe`, ... creates an object with a fresh identity, and
the C code only ever compares a handle with `INVALID_SOCKET` /
`INVALID_HANDLE_VALUE`.
-/

namespace AprPipe

/-! ## Status codes and scalar types -/

abbrev apr_status_t := Int

abbrev apr_interval_time_t := Int

abbrev apr_int32_t := Int

def APR_SUCCESS : apr_status_t := 0

/-- Modelled from the spec: `APR_EINVAL` (InvalidArgument) is declared in
`apr_errno.h`, which is not part of the sources at hand; it is the C library's
`EINVAL`.  What the statements below depend on is that it is not
`APR_SUCCESS`. -/
def APR_EINVAL : apr_status_t := 22

/-- Modelled from the spec: `APR_ENOTIMPL` (NotImplemented) is declared in
`apr_errno.h`, which is not part of the sources at hand
(`APR_OS_START_STATUS + 23`).  What the statements below depend on is that it
is not `APR_SUCCESS`. -/
def APR_ENOTIMPL : apr_status_t := 70023

/-- Modelled from the spec: the four blocking modes (FullBlock,
ReadBlockWriteNonblock, WriteBlockReadNonblock, FullNonblock) are macros of
`apr_thread_proc.h`, which is not part of the sources at hand; what the
statements below depend on is that the four values are pairwise distinct. -/
def APR_FULL_BLOCK : apr_int32_t := 1

/-- Modelled from the spec: see `APR_FULL_BLOCK`. -/
def APR_FULL_NONBLOCK : apr_int32_t := 2

/-- Modelled from the spec: see `APR_FULL_BLOCK`; the write side is the
non-blocking one. -/
def APR_READ_BLOCK : apr_int32_t := 3

/-- Modelled from the spec: see `APR_FULL_BLOCK`; the read side is the
non-blocking one. -/
def APR_WRITE_BLOCK : apr_int32_t := 4

/-- The value `SOCKET_ERROR` of Winsock. -/
def SOCKET_ERROR : Int := -1

/-! ## Handles -/

/-- A native handle value: the null handle (what `apr_pcalloc` leaves in a
field), the all-ones invalid marker, or a live kernel object. -/
inductive Handle where
  | NULL
  | INVALID
  | obj (id : Nat)
  deriving DecidableEq, Repr

abbrev HANDLE := Handle

abbrev SOCKET := Handle

def INVALID_HANDLE_VALUE : HANDLE := Handle.INVALID

def INVALID_SOCKET : SOCKET := Handle.INVALID

/-- A `char[8]` buffer. -/
abbrev Buf8 := { l : List (Fin 256) // l.length = 8 }

/-! ## The endpoint record -/

/-- Modelled from the spec: the endpoint type tag (a file, a pipe, a socket)
is an enumeration of `apr_arch_file_io.h`, which is not part of the sources at
hand. -/
inductive apr_filetype_e where
  | APR_FILETYPE_FILE
  | APR_FILETYPE_PIPE
  | APR_FILETYPE_SOCKET
  deriving DecidableEq, Repr

open apr_filetype_e

structure OVERLAPPED where
  hEvent : HANDLE
  deriving DecidableEq, Repr

/-- The fields of `apr_file_t` that `pipe.c` reads or writes. -/
structure apr_file_t where
  pool : Nat
  filehand : HANDLE
  ftype : apr_filetype_e
  timeout : apr_interval_time_t
  pOverlapped : Option OVERLAPPED
  ungetchar : Int
  eof_hit : Int
  filePtr : Int
  bufpos : Int
  dataRead : Int
  direction : Int
  mutex : Option Nat
  deriving DecidableEq, Repr

/-- What `apr_pcalloc(pool, sizeof(apr_file_t))` returns: all fields zero. -/
def apr_pcalloc_file : apr_file_t :=
  { pool := 0, filehand := Handle.NULL, ftype := APR_FILETYPE_FILE, timeout := 0,
    pOverlapped := none, ungetchar := 0, eof_hit := 0, filePtr := 0, bufpos := 0,
    dataRead := 0, direction := 0, mutex := none }

/-- The cleanup callbacks that `pipe.c` registers with a pool. -/
inductive CleanupFn where
  | file_cleanup
  | socket_pipe_cleanup
  deriving DecidableEq, Repr

/-! ## The record of calls made -/

/-- One call made by `pipe.c` to the operating system or to another part of
APR, with the arguments that identify it and, where it creates an object, the
handle returned.  Every `ioctlsocket` call of `pipe.c` has the command
`FIONBIO`; `arg` is the value its last argument points to (non-zero: switch to
non-blocking mode, zero: switch to blocking mode). -/
inductive Call where
  | generate_random_bytes
  | socket (ret : SOCKET)
  | bind (s : SOCKET)
  | getsockname (s : SOCKET)
  | listen (s : SOCKET) (backlog : Nat)
  | connect (s : SOCKET)
  | send (s : SOCKET) (buf : Buf8) (ret : Int)
  | ioctlsocket (s : SOCKET) (arg : Nat)
  | select (s : SOCKET) (ret : Int)
  | Sleep (ms : Nat)
  | accept (s : SOCKET) (ret : SOCKET)
  | recv (s : SOCKET) (ret : Int)
  | closesocket (s : SOCKET)
  | shutdown_SD_BOTH (s : SOCKET)
  | CreateEvent (ret : HANDLE)
  | CreateNamedPipe (name : List Char) (overlapped : Bool) (ret : HANDLE)
  | CreateFile (name : List Char) (overlapped : Bool) (ret : HANDLE)
  | CreatePipe (ok : Bool)
  | file_cleanup (f : apr_file_t)
  | apr_file_close (f : apr_file_t)
  | apr_pool_cleanup_register (pool : Nat) (f : apr_file_t) (fn : CleanupFn)
  | apr_pool_cleanup_kill (pool : Nat) (f : apr_file_t) (fn : CleanupFn)
  | apr_thread_mutex_destroy (m : Nat)
  deriving DecidableEq, Repr

/-- Outcome of a system call that either succeeds or fails; on failure `rv` is
the status that `apr_get_netos_error()` / `apr_get_os_error()` then reports. -/
inductive Outcome where
  | ok
  | fail (rv : apr_status_t)
  deriving DecidableEq, Repr

/-! ## `apr_file_pipe_timeout_set` / `apr_file_pipe_timeout_get` -/

/-- The function `apr_file_pipe_timeout_set`: the status and the endpoint
afterwards. -/
def apr_file_pipe_timeout_set (thepipe : apr_file_t) (timeout : apr_interval_time_t) :
    apr_status_t × apr_file_t :=
  if timeout = -1 then
    (APR_SUCCESS, { thepipe with timeout := timeout })
  else if thepipe.ftype ≠ APR_FILETYPE_PIPE then
    (APR_ENOTIMPL, thepipe)
  else if timeout ≠ 0 ∧ thepipe.pOverlapped = none then
    (APR_EINVAL, thepipe)
  else
    (APR_SUCCESS, { thepipe with timeout := timeout })

/-- The function `apr_file_pipe_timeout_get`: the status and `*timeout`. -/
def apr_file_pipe_timeout_get (thepipe : apr_file_t) : apr_status_t × apr_interval_time_t :=
  (APR_SUCCESS, thepipe.timeout)

/-! ## `create_socket_pipe` -/

/-- Outcomes of the calls `create_socket_pipe` makes before its loop, in
program order.  `uid` is what `apr_generate_random_bytes` left in the buffer,
`send_ret` the value `send` returned and `send_err` what
`apr_get_netos_error()` reports after it. -/
structure SetupOutcomes where
  rand_rv : apr_status_t
  uid : Buf8
  socket_ls : Outcome
  bind : Outcome
  getsockname : Outcome
  listen : Outcome
  socket_wr : Outcome
  connect : Outcome
  send_ret : Int
  send_err : apr_status_t
  ioctl_ls : Outcome
  deriving DecidableEq, Repr

/-- Outcomes of the calls of one pass through the `for (;;)` loop, in program
order: the value `select` returned, then (if reached) `accept`, the
`ioctlsocket` before the read, `recv` (its return value, the status
`apr_get_netos_error()` reports after it, and the contents of `iid`), and the
`ioctlsocket` after a match. -/
structure Iteration where
  select_ret : Int
  accept : Outcome
  ioctl_verify : Outcome
  recv_ret : Int
  recv_err : apr_status_t
  iid : Buf8
  ioctl_final : Outcome
  deriving DecidableEq, Repr

/-- What `create_socket_pipe` leaves behind: its status, `*rd`, `*wr`, the
identity the next created object will get, and the calls it made. -/
structure SockResult where
  rv : apr_status_t
  rd : SOCKET
  wr : SOCKET
  next : Nat
  calls : List Call
  deriving DecidableEq, Repr

/-- Put calls made earlier in front of the calls of a result. -/
def SockResult.after (cs : List Call) (r : SockResult) : SockResult :=
  { r with calls := cs ++ r.calls }

/-- The `memcmp(a, b, 8) == 0` test on two `char[8]` buffers. -/
def memcmp8_eq (a b : Buf8) : Bool := decide (a = b)

/-- The code at the label `cleanup:` of `create_socket_pipe`. -/
def socket_pipe_rollback (ls rd wr : SOCKET) (rv : apr_status_t) (next : Nat) : SockResult :=
  { rv := rv, rd := INVALID_SOCKET, wr := INVALID_SOCKET, next := next,
    calls := [Call.closesocket ls]
      ++ (if rd ≠ INVALID_SOCKET then [Call.closesocket rd] else [])
      ++ (if wr ≠ INVALID_SOCKET then [Call.closesocket wr] else []) }

/-- The `for (;;)` loop of `create_socket_pipe` together with what follows it.
`rd` is the current value of `*rd`.  The loop has no exit of its own: when the
supplied iterations run out the call is still waiting, which is `none`. -/
def accept_loop (ls wr : SOCKET) (uid : Buf8) :
    SOCKET → Nat → List Iteration → Option SockResult
  | _, _, [] => none
  | rd, next, it :: rest =>
    if it.select_ret = SOCKET_ERROR then
      (accept_loop ls wr uid rd next rest).map
        (SockResult.after [Call.select ls it.select_ret, Call.Sleep 100])
    else if it.select_ret = 0 then
      (accept_loop ls wr uid rd next rest).map
        (SockResult.after [Call.select ls it.select_ret])
    else
      match it.accept with
      | Outcome.fail rv =>
        some ((socket_pipe_rollback ls INVALID_SOCKET wr rv next).after
          [Call.select ls it.select_ret, Call.accept ls INVALID_SOCKET])
      | Outcome.ok =>
        let c : SOCKET := Handle.obj next
        match it.ioctl_verify with
        | Outcome.fail rv =>
          some ((socket_pipe_rollback ls c wr rv (next + 1)).after
            [Call.select ls it.select_ret, Call.accept ls c,
             Call.ioctlsocket c 0])
        | Outcome.ok =>
          if it.recv_ret = SOCKET_ERROR then
            some ((socket_pipe_rollback ls c wr it.recv_err (next + 1)).after
              [Call.select ls it.select_ret, Call.accept ls c,
               Call.ioctlsocket c 0, Call.recv c it.recv_ret])
          else if it.recv_ret = 8 ∧ memcmp8_eq it.iid uid = true then
            match it.ioctl_final with
            | Outcome.fail rv =>
              some ((socket_pipe_rollback ls c wr rv (next + 1)).after
                [Call.select ls it.select_ret, Call.accept ls c,
                 Call.ioctlsocket c 0, Call.recv c it.recv_ret,
                 Call.ioctlsocket c 1])
            | Outcome.ok =>
              some { rv := 0, rd := c, wr := wr, next := next + 1,
                     calls := [Call.select ls it.select_ret, Call.accept ls c,
                       Call.ioctlsocket c 0, Call.recv c it.recv_ret,
                       Call.ioctlsocket c 1, Call.closesocket ls] }
          else
            (accept_loop ls wr uid c (next + 1) rest).map
              (SockResult.after [Call.select ls it.select_ret, Call.accept ls c,
                Call.ioctlsocket c 0, Call.recv c it.recv_ret,
                Call.closesocket c])

/-- The function `create_socket_pipe`, started when the next created object
gets identity `next`.  `none`: the supplied loop iterations ran out while the
call was still waiting for a connection. -/
def create_socket_pipe (o : SetupOutcomes) (its : List Iteration) (next : Nat) :
    Option SockResult :=
  if o.rand_rv ≠ APR_SUCCESS then
    some { rv := o.rand_rv, rd := INVALID_SOCKET, wr := INVALID_SOCKET, next := next,
           calls := [Call.generate_random_bytes] }
  else
    match o.socket_ls with
    | Outcome.fail rv =>
      some { rv := rv, rd := INVALID_SOCKET, wr := INVALID_SOCKET, next := next,
             calls := [Call.generate_random_bytes, Call.socket INVALID_SOCKET] }
    | Outcome.ok =>
      let ls : SOCKET := Handle.obj next
      match o.bind with
      | Outcome.fail rv =>
        some ((socket_pipe_rollback ls INVALID_SOCKET INVALID_SOCKET rv (next + 1)).after
          [Call.generate_random_bytes, Call.socket ls, Call.bind ls])
      | Outcome.ok =>
      match o.getsockname with
      | Outcome.fail rv =>
        some ((socket_pipe_rollback ls INVALID_SOCKET INVALID_SOCKET rv (next + 1)).after
          [Call.generate_random_bytes, Call.socket ls, Call.bind ls, Call.getsockname ls])
      | Outcome.ok =>
      match o.listen with
      | Outcome.fail rv =>
        some ((socket_pipe_rollback ls INVALID_SOCKET INVALID_SOCKET rv (next + 1)).after
          [Call.generate_random_bytes, Call.socket ls, Call.bind ls, Call.getsockname ls,
           Call.listen ls 1])
      | Outcome.ok =>
      match o.socket_wr with
      | Outcome.fail rv =>
        some ((socket_pipe_rollback ls INVALID_SOCKET INVALID_SOCKET rv (next + 1)).after
          [Call.generate_random_bytes, Call.socket ls, Call.bind ls, Call.getsockname ls,
           Call.listen ls 1, Call.socket INVALID_SOCKET])
      | Outcome.ok =>
      let wr : SOCKET := Handle.obj (next + 1)
      match o.connect with
      | Outcome.fail rv =>
        some ((socket_pipe_rollback ls INVALID_SOCKET wr rv (next + 2)).after
          [Call.generate_random_bytes, Call.socket ls, Call.bind ls, Call.getsockname ls,
           Call.listen ls 1, Call.socket wr, Call.connect wr])
      | Outcome.ok =>
      if o.send_ret ≠ 8 then
        some ((socket_pipe_rollback ls INVALID_SOCKET wr
            (if o.send_err = 0 then APR_EINVAL else o.send_err) (next + 2)).after
          [Call.generate_random_bytes, Call.socket ls, Call.bind ls, Call.getsockname ls,
           Call.listen ls 1, Call.socket wr, Call.connect wr, Call.send wr o.uid o.send_ret])
      else
      match o.ioctl_ls with
      | Outcome.fail rv =>
        some ((socket_pipe_rollback ls INVALID_SOCKET wr rv (next + 2)).after
          [Call.generate_random_bytes, Call.socket ls, Call.bind ls, Call.getsockname ls,
           Call.listen ls 1, Call.socket wr, Call.connect wr, Call.send wr o.uid o.send_ret,
           Call.ioctlsocket ls 1])
      | Outcome.ok =>
        (accept_loop ls wr o.uid INVALID_SOCKET (next + 2) its).map
          (SockResult.after
            [Call.generate_random_bytes, Call.socket ls, Call.bind ls, Call.getsockname ls,
             Call.listen ls 1, Call.socket wr, Call.connect wr,
             Call.send wr o.uid o.send_ret, Call.ioctlsocket ls 1])

/-! ## `socket_pipe_cleanup`, `apr_file_socket_pipe_create`, `apr_file_socket_pipe_close` -/

/-- The function `socket_pipe_cleanup`: status, the endpoint afterwards, calls
made. -/
def socket_pipe_cleanup (file : apr_file_t) : apr_status_t × apr_file_t × List Call :=
  if file.filehand ≠ INVALID_HANDLE_VALUE then
    (APR_SUCCESS, { file with filehand := INVALID_HANDLE_VALUE },
      [Call.shutdown_SD_BOTH file.filehand, Call.closesocket file.filehand])
  else
    (APR_SUCCESS, file, [])

/-- What `apr_file_socket_pipe_create` leaves behind: its status, `*in` and
`*out` (`none` while the routine has not stored anything there), the identity
the next created object will get, and the calls made. -/
structure PairResult where
  rv : apr_status_t
  in_ : Option apr_file_t
  out_ : Option apr_file_t
  next : Nat
  calls : List Call
  deriving DecidableEq, Repr

/-- The function `apr_file_socket_pipe_create` on pool `p`. -/
def apr_file_socket_pipe_create (p : Nat) (o : SetupOutcomes) (its : List Iteration)
    (next : Nat) : Option PairResult :=
  match create_socket_pipe o its next with
  | none => none
  | some r =>
    if r.rv ≠ APR_SUCCESS then
      some { rv := r.rv, in_ := none, out_ := none, next := r.next, calls := r.calls }
    else
      let fin : apr_file_t :=
        { apr_pcalloc_file with
          pool := p, ftype := APR_FILETYPE_SOCKET, timeout := 0, ungetchar := -1,
          eof_hit := 0, filePtr := 0, bufpos := 0, dataRead := 0, direction := 0,
          pOverlapped := none, filehand := r.rd }
      let fout : apr_file_t :=
        { apr_pcalloc_file with
          pool := p, ftype := APR_FILETYPE_SOCKET, timeout := -1, ungetchar := -1,
          eof_hit := 0, filePtr := 0, bufpos := 0, dataRead := 0, direction := 0,
          pOverlapped := none, filehand := r.wr }
      some { rv := r.rv, in_ := some fin, out_ := some fout, next := r.next,
             calls := r.calls ++
               [Call.apr_pool_cleanup_register p fin CleanupFn.socket_pipe_cleanup,
                Call.apr_pool_cleanup_register p fout CleanupFn.socket_pipe_cleanup] }

/-- The function `apr_file_socket_pipe_close`: status, the endpoint afterwards,
calls made.  `close_rv` is what `apr_file_close` returns when the endpoint is
handed on to it. -/
def apr_file_socket_pipe_close (file : apr_file_t) (close_rv : apr_status_t) :
    apr_status_t × apr_file_t × List Call :=
  if file.ftype ≠ APR_FILETYPE_SOCKET then
    (close_rv, file, [Call.apr_file_close file])
  else
    match socket_pipe_cleanup file with
    | (stat, file1, cs) =>
      if stat = APR_SUCCESS then
        (APR_SUCCESS, file1,
          cs ++ [Call.apr_pool_cleanup_kill file1.pool file1 CleanupFn.socket_pipe_cleanup]
            ++ (match file1.mutex with
                | some m => [Call.apr_thread_mutex_destroy m]
                | none => []))
      else
        (stat, file1, cs)

/-! ## Pipe names -/

/-- The character for a hexadecimal digit, lower case as `%x` prints it. -/
def hexChar (d : Nat) : Char :=
  if d < 10 then Char.ofNat (48 + d) else Char.ofNat (87 + d)

/-- What `%x` / `%lx` print for an unsigned value: hexadecimal, most
significant digit first, no leading zeros, `0` for zero. -/
def hex (n : Nat) : List Char :=
  if n = 0 then [hexChar 0] else ((Nat.digits 16 n).reverse).map hexChar

/-- What `apr_escape_hex(dest, src, 8, 0, NULL)` writes before the terminating
NUL: two hexadecimal digits per byte. -/
def apr_escape_hex (src : Buf8) : List Char :=
  src.val.flatMap (fun b => [hexChar (b.val / 16), hexChar (b.val % 16)])

def sizeof_int : Nat := 4

/-- On Win32 and Win64 alike `unsigned long` has 32 bits. -/
def sizeof_unsigned_long : Nat := 4

def sizeof_rand : Nat := 8

/-- The literal part of `FMT_PIPE_NAME` in front of `%x`. -/
def FMT_PIPE_NAME_head : List Char :=
  [Char.ofNat 92, Char.ofNat 92, '.', Char.ofNat 92, 'p', 'i', 'p', 'e', Char.ofNat 92,
   'a', 'p', 'r', '-', 'p', 'i', 'p', 'e', '-']

/-- The value of `sizeof FMT_PIPE_NAME`: the 18 literal characters in front of
`%x`, `%x`, `.`, `%lx`, `.`, and the terminating NUL. -/
def sizeof_FMT_PIPE_NAME : Nat := FMT_PIPE_NAME_head.length + 2 + 1 + 3 + 1 + 1

/-- The value of `sizeof name`. -/
def sizeof_name : Nat :=
  sizeof_FMT_PIPE_NAME + 2 * sizeof_int + 2 * sizeof_unsigned_long + 2 * sizeof_rand

/-- The complete output of the format `FMT_PIPE_NAME` for `pid` (an `int`,
printed by `%x` as the unsigned value of the same bits) and `id` (an
`unsigned long`). -/
def format_pipe_name (pid : Int) (id : Nat) : List Char :=
  FMT_PIPE_NAME_head ++ hex (pid % 2 ^ (8 * sizeof_int)).toNat ++ ['.']
    ++ hex (id % 2 ^ (8 * sizeof_unsigned_long)) ++ ['.']

/-- The function `apr_snprintf(buf, len, ...)` for a format whose complete
output is `s`: what is stored in front of the NUL, and the value returned. -/
def apr_snprintf (len : Nat) (s : List Char) : List Char × Nat :=
  (s.take (len - 1), (s.take (len - 1)).length)

/-- The contents of `name` (in front of the NUL) after the `apr_snprintf` and
`apr_escape_hex` calls of `file_pipe_create`. -/
def pipe_name (pid : Int) (id : Nat) (rand : Buf8) : List Char :=
  (apr_snprintf sizeof_name (format_pipe_name pid id)).1 ++ apr_escape_hex rand

/-! ## `file_pipe_create` -/

/-- Outcomes of the calls `file_pipe_create` makes, in program order:
whether `apr_os_level >= APR_WIN_NT`, the value of `getpid()`, whether the
`CreateEvent` for the read end gave a handle, the status and bytes of
`apr_generate_random_bytes`, `CreateNamedPipe`, whether the `CreateEvent` for
the write end gave a handle, `CreateFile`, and (below NT) `CreatePipe`. -/
structure PipeOutcomes where
  os_level_nt : Bool
  pid : Int
  CreateEvent_in : Bool
  rand_rv : apr_status_t
  rand : Buf8
  CreateNamedPipe : Outcome
  CreateEvent_out : Bool
  CreateFile : Outcome
  CreatePipe : Outcome
  deriving DecidableEq, Repr

/-- What `file_pipe_create` leaves behind: its status, `**in` and `**out`, the
static counter `id`, the identity the next created object will get, and the
calls made.  `file_cleanup` is defined in another file; its call is recorded
and the endpoint is shown as it was handed to it. -/
structure PipeResult where
  rv : apr_status_t
  in_ : apr_file_t
  out_ : apr_file_t
  id : Nat
  next : Nat
  calls : List Call
  deriving DecidableEq, Repr

/-- The endpoint as `file_pipe_create` initialises it right after
`apr_pcalloc`. -/
def new_pipe_file (pool : Nat) : apr_file_t :=
  { apr_pcalloc_file with
    pool := pool, ftype := APR_FILETYPE_PIPE, timeout := -1, ungetchar := -1,
    eof_hit := 0, filePtr := 0, bufpos := 0, dataRead := 0, direction := 0,
    pOverlapped := none }

/-- The block `pOverlapped = apr_pcalloc(..); pOverlapped->hEvent =
CreateEvent(..); timeout = 0;` applied to an endpoint: the endpoint, the next
object identity, the call made.  A failed `CreateEvent` returns `NULL`, which
the code does not test. -/
def attach_overlapped (f : apr_file_t) (ev_ok : Bool) (next : Nat) :
    apr_file_t × Nat × List Call :=
  let ev : HANDLE := if ev_ok then Handle.obj next else Handle.NULL
  ({ f with pOverlapped := some { hEvent := ev }, timeout := 0 },
    (if ev_ok then next + 1 else next), [Call.CreateEvent ev])

/-- The function `file_pipe_create`, called when the static counter holds `id`
and the next created object gets identity `next`. -/
def file_pipe_create (blocking : apr_int32_t) (pool_in pool_out : Nat) (id : Nat)
    (o : PipeOutcomes) (next : Nat) : PipeResult :=
  let in0 := new_pipe_file pool_in
  let out0 := new_pipe_file pool_out
  if o.os_level_nt then
    let rd_nb : Bool := decide (blocking = APR_WRITE_BLOCK ∨ blocking = APR_FULL_NONBLOCK)
    let a := if rd_nb then attach_overlapped in0 o.CreateEvent_in next else (in0, next, [])
    let in1 := a.1
    let next1 := a.2.1
    let cs1 := a.2.2 ++ [Call.generate_random_bytes]
    if o.rand_rv ≠ APR_SUCCESS then
      { rv := o.rand_rv, in_ := in1, out_ := out0, id := id, next := next1,
        calls := cs1 ++ [Call.file_cleanup in1] }
    else
      let name := pipe_name o.pid id o.rand
      let id1 := (id + 1) % 2 ^ (8 * sizeof_unsigned_long)
      match o.CreateNamedPipe with
      | Outcome.fail rv =>
        let in2 := { in1 with filehand := INVALID_HANDLE_VALUE }
        { rv := rv, in_ := in2, out_ := out0, id := id1, next := next1,
          calls := cs1 ++ [Call.CreateNamedPipe name rd_nb INVALID_HANDLE_VALUE,
                           Call.file_cleanup in2] }
      | Outcome.ok =>
        let in2 := { in1 with filehand := Handle.obj next1 }
        let next2 := next1 + 1
        let cs2 := cs1 ++ [Call.CreateNamedPipe name rd_nb (Handle.obj next1)]
        let wr_nb : Bool := decide (blocking = APR_READ_BLOCK ∨ blocking = APR_FULL_NONBLOCK)
        let b := if wr_nb then attach_overlapped out0 o.CreateEvent_out next2
                 else (out0, next2, [])
        let out1 := b.1
        let next3 := b.2.1
        let cs3 := cs2 ++ b.2.2
        match o.CreateFile with
        | Outcome.fail rv =>
          let out2 := { out1 with filehand := INVALID_HANDLE_VALUE }
          { rv := rv, in_ := in2, out_ := out2, id := id1, next := next3,
            calls := cs3 ++ [Call.CreateFile name wr_nb INVALID_HANDLE_VALUE,
                             Call.file_cleanup out2, Call.file_cleanup in2] }
        | Outcome.ok =>
          let out2 := { out1 with filehand := Handle.obj next3 }
          { rv := APR_SUCCESS, in_ := in2, out_ := out2, id := id1, next := next3 + 1,
            calls := cs3 ++ [Call.CreateFile name wr_nb (Handle.obj next3),
              Call.apr_pool_cleanup_register pool_in in2 CleanupFn.file_cleanup,
              Call.apr_pool_cleanup_register pool_out out2 CleanupFn.file_cleanup] }
  else
    match o.CreatePipe with
    | Outcome.fail rv =>
      { rv := rv, in_ := in0, out_ := out0, id := id, next := next,
        calls := [Call.CreatePipe false] }
    | Outcome.ok =>
      let in1 := { in0 with filehand := Handle.obj next }
      let out1 := { out0 with filehand := Handle.obj (next + 1) }
      { rv := APR_SUCCESS, in_ := in1, out_ := out1, id := id, next := next + 2,
        calls := [Call.CreatePipe true,
          Call.apr_pool_cleanup_register pool_in in1 CleanupFn.file_cleanup,
          Call.apr_pool_cleanup_register pool_out out1 CleanupFn.file_cleanup] }

/-- The name handed to `CreateNamedPipe` by a call, if the call got that far. -/
def PipeResult.name (r : PipeResult) : Option (List Char) :=
  r.calls.findSome? (fun c =>
    match c with
    | Call.CreateNamedPipe n _ _ => some n
    | _ => none)

/-- The outcome is not a failure for which the error translation
(`apr_get_netos_error()`, `apr_get_os_error()`) reports `APR_SUCCESS`: after
a failed system call the last-error value of the thread is not zero. -/
abbrev Outcome.reported (x : Outcome) : Prop := x ≠ Outcome.fail APR_SUCCESS

/-- Every failed call of `file_pipe_create` reports an error status. -/
abbrev PipeOutcomes.errors_reported (o : PipeOutcomes) : Prop :=
  o.CreateNamedPipe.reported ∧ o.CreateFile.reported ∧ o.CreatePipe.reported

/-- The socket a call creates: a `socket` or `accept` call that returned a
socket and not `INVALID_SOCKET`. -/
def Call.opens : Call → Option SOCKET
  | Call.socket s => if s = INVALID_SOCKET then none else some s
  | Call.accept _ s => if s = INVALID_SOCKET then none else some s
  | _ => none

/-- The sockets created by the calls, in order. -/
def opened (cs : List Call) : List SOCKET := cs.filterMap Call.opens

/-- The socket a `closesocket` call is applied to. -/
def Call.closes : Call → Option SOCKET
  | Call.closesocket s => some s
  | _ => none

/-- The arguments of the `closesocket` calls, in order. -/
def closed (cs : List Call) : List SOCKET := cs.filterMap Call.closes

/-- The socket a `shutdown(.., SD_BOTH)` call is applied to. -/
def Call.shuts : Call → Option SOCKET
  | Call.shutdown_SD_BOTH s => some s
  | _ => none

/-- The arguments of the `shutdown` calls, in order. -/
def shut_down (cs : List Call) : List SOCKET := cs.filterMap Call.shuts

/-- The argument of an `ioctlsocket(s, FIONBIO, ..)` call on the socket `s`. -/
def Call.sets_mode (s : SOCKET) : Call → Option Nat
  | Call.ioctlsocket s1 arg => if s1 = s then some arg else none
  | _ => none

/-- The arguments of the `FIONBIO` mode changes applied to `s`, in order. -/
def modes_set (s : SOCKET) (cs : List Call) : List Nat := cs.filterMap (Call.sets_mode s)

/-- The endpoint a `file_cleanup` call is run on. -/
def Call.cleans : Call → Option apr_file_t
  | Call.file_cleanup f => some f
  | _ => none

/-- The endpoints `file_cleanup` was run on, in order. -/
def cleaned (cs : List Call) : List apr_file_t := cs.filterMap Call.cleans

/-- The pool, endpoint and callback of an `apr_pool_cleanup_register` call. -/
def Call.registers : Call → Option (Nat × apr_file_t × CleanupFn)
  | Call.apr_pool_cleanup_register p f fn => some (p, f, fn)
  | _ => none

/-- The cleanup registrations made, in order. -/
def registered (cs : List Call) : List (Nat × apr_file_t × CleanupFn) :=
  cs.filterMap Call.registers

/-- A pass through the loop in which `select` reported an error or a timeout,
so that nothing is accepted. -/
abbrev Iteration.idle (it : Iteration) : Prop :=
  it.select_ret = SOCKET_ERROR ∨ it.select_ret = 0

/-- A pass in which a candidate is accepted and read from, the read is not an
error, and what was read is not exactly the 8 bytes of `uid`. -/
abbrev Iteration.stray (uid : Buf8) (it : Iteration) : Prop :=
  ¬ it.idle ∧ it.accept = Outcome.ok ∧ it.ioctl_verify = Outcome.ok ∧
  it.recv_ret ≠ SOCKET_ERROR ∧ ¬ (it.recv_ret = 8 ∧ it.iid = uid)

/-- A pass in which a candidate is accepted and read from and the read yields
exactly the 8 bytes of `uid`. -/
abbrev Iteration.yields_token (uid : Buf8) (it : Iteration) : Prop :=
  ¬ it.idle ∧ it.accept = Outcome.ok ∧ it.ioctl_verify = Outcome.ok ∧
  it.recv_ret = 8 ∧ it.iid = uid

/-- Everything before the loop succeeds: the random token, both `socket`
calls, `bind`, `getsockname`, `listen`, `connect`, the `send` of all 8 bytes,
and making the listening socket non-blocking. -/
abbrev SetupOutcomes.succeeds (o : SetupOutcomes) : Prop :=
  o.rand_rv = APR_SUCCESS ∧ o.socket_ls = Outcome.ok ∧ o.bind = Outcome.ok ∧
  o.getsockname = Outcome.ok ∧ o.listen = Outcome.ok ∧ o.socket_wr = Outcome.ok ∧
  o.connect = Outcome.ok ∧ o.send_ret = 8 ∧ o.ioctl_ls = Outcome.ok

/-- The number of passes in which a candidate is accepted. -/
def accepted (its : List Iteration) : Nat :=
  its.countP (fun it => decide (¬ it.idle))

/-- Every failed call before the loop of `create_socket_pipe` whose status the
routine takes from `apr_get_netos_error()` alone reports an error status. -/
abbrev SetupOutcomes.errors_reported (o : SetupOutcomes) : Prop :=
  o.socket_ls.reported ∧ o.bind.reported ∧ o.getsockname.reported ∧ o.listen.reported ∧
  o.socket_wr.reported ∧ o.connect.reported ∧ o.ioctl_ls.reported

/-- Every failed call of one pass through the loop reports an error status. -/
abbrev Iteration.errors_reported (it : Iteration) : Prop :=
  it.accept.reported ∧ it.ioctl_verify.reported ∧
  (it.recv_ret = SOCKET_ERROR → it.recv_err ≠ APR_SUCCESS) ∧ it.ioctl_final.reported

/-- For each `recv` call among `cs`, in order: the argument of the call right
before it if that call is an `ioctlsocket(.., FIONBIO, ..)` on the same socket,
and `none` otherwise.  `prev` is the call made right before `cs`. -/
def modes_before_recv_from : Option Call → List Call → List (Option Nat)
  | _, [] => []
  | prev, c :: cs =>
    (match c with
     | Call.recv s _ => [prev.bind (Call.sets_mode s)]
     | _ => []) ++ modes_before_recv_from (some c) cs

/-- For each `recv` call of a record of calls: the `FIONBIO` argument applied
to its socket by the call immediately before it. -/
def modes_before_recv (cs : List Call) : List (Option Nat) := modes_before_recv_from none cs

/-- For each `ioctlsocket(.., FIONBIO, ..)` call among `cs` whose argument is
not zero, in order: the socket it is applied to and the call made right before
it.  `prev` is the call made right before `cs`. -/
def nonblocking_switches_from : Option Call → List Call → List (SOCKET × Option Call)
  | _, [] => []
  | prev, c :: cs =>
    (match c with
     | Call.ioctlsocket s arg => if arg ≠ 0 then [(s, prev)] else []
     | _ => []) ++ nonblocking_switches_from (some c) cs

/-- The switches to non-blocking mode of a record of calls: for each, the
socket and the call made immediately before the switch. -/
def nonblocking_switches (cs : List Call) : List (SOCKET × Option Call) :=
  nonblocking_switches_from none cs

/-! ## Concrete outcomes used to exercise the model -/

def ex_token : Buf8 := ⟨[1, 2, 3, 4, 5, 6, 7, 8], rfl⟩

def ex_other_bytes : Buf8 := ⟨[9, 9, 9, 9, 9, 9, 9, 9], rfl⟩

/-- Every call before the loop succeeds; the token is `ex_token`. -/
def ex_setup : SetupOutcomes :=
  { rand_rv := 0, uid := ex_token, socket_ls := Outcome.ok, bind := Outcome.ok,
    getsockname := Outcome.ok, listen := Outcome.ok, socket_wr := Outcome.ok,
    connect := Outcome.ok, send_ret := 8, send_err := 0, ioctl_ls := Outcome.ok }

/-- A pass in which the accepted candidate delivers the token and every call
succeeds. -/
def ex_pass_token : Iteration :=
  { select_ret := 1, accept := Outcome.ok, ioctl_verify := Outcome.ok, recv_ret := 8,
    recv_err := 0, iid := ex_token, ioctl_final := Outcome.ok }

/-- A pass in which the accepted candidate delivers 8 bytes that are not the
token. -/
def ex_pass_stray : Iteration := { ex_pass_token with iid := ex_other_bytes }

/-- A pass in which `select` times out. -/
def ex_pass_timeout : Iteration := { ex_pass_token with select_ret := 0 }

/-- A pass in which the accepted candidate delivers the token and the
`ioctlsocket` call that follows fails with `WSAENOTSOCK`. -/
def ex_pass_token_mode_fails : Iteration :=
  { ex_pass_token with ioctl_final := Outcome.fail 730038 }

/-- A pass in which `accept` fails with `WSAECONNRESET`. -/
def ex_pass_accept_fails : Iteration :=
  { ex_pass_token with accept := Outcome.fail 730054 }

/-- A call of `file_pipe_create` on NT by process 1 in which every call
succeeds; the random bytes are `ex_token`. -/
def ex_pipe_outcomes : PipeOutcomes :=
  { os_level_nt := true, pid := 1, CreateEvent_in := true, rand_rv := 0, rand := ex_token,
    CreateNamedPipe := Outcome.ok, CreateEvent_out := true, CreateFile := Outcome.ok,
    CreatePipe := Outcome.ok }

/-- The outcomes of `ex_pipe_outcomes` except that the client open of the write
end fails with `ERROR_ACCESS_DENIED`. -/
def ex_pipe_outcomes_open_fails : PipeOutcomes :=
  { ex_pipe_outcomes with CreateFile := Outcome.fail 720005 }

/-- What `create_socket_pipe` leaves behind when a stray candidate is
discarded, `select` times out once, and the next `accept` fails. -/
def ex_result_accept_fails : SockResult :=
  { rv := 730054, rd := INVALID_SOCKET, wr := INVALID_SOCKET, next := 3,
    calls := [Call.generate_random_bytes, Call.socket (Handle.obj 0), Call.bind (Handle.obj 0),
      Call.getsockname (Handle.obj 0), Call.listen (Handle.obj 0) 1,
      Call.socket (Handle.obj 1), Call.connect (Handle.obj 1),
      Call.send (Handle.obj 1) ex_token 8, Call.ioctlsocket (Handle.obj 0) 1,
      Call.select (Handle.obj 0) 1, Call.accept (Handle.obj 0) (Handle.obj 2),
      Call.ioctlsocket (Handle.obj 2) 0, Call.recv (Handle.obj 2) 8,
      Call.closesocket (Handle.obj 2),
      Call.select (Handle.obj 0) 0,
      Call.select (Handle.obj 0) 1, Call.accept (Handle.obj 0) INVALID_SOCKET,
      Call.closesocket (Handle.obj 0), Call.closesocket (Handle.obj 1)] }

/-- What `create_socket_pipe` leaves behind when the first candidate delivers
the token and the `ioctlsocket` call that follows fails. -/
def ex_result_mode_fails : SockResult :=
  { rv := 730038, rd := INVALID_SOCKET, wr := INVALID_SOCKET, next := 3,
    calls := [Call.generate_random_bytes, Call.socket (Handle.obj 0), Call.bind (Handle.obj 0),
      Call.getsockname (Handle.obj 0), Call.listen (Handle.obj 0) 1,
      Call.socket (Handle.obj 1), Call.connect (Handle.obj 1),
      Call.send (Handle.obj 1) ex_token 8, Call.ioctlsocket (Handle.obj 0) 1,
      Call.select (Handle.obj 0) 1, Call.accept (Handle.obj 0) (Handle.obj 2),
      Call.ioctlsocket (Handle.obj 2) 0, Call.recv (Handle.obj 2) 8,
      Call.ioctlsocket (Handle.obj 2) 1,
      Call.closesocket (Handle.obj 0), Call.closesocket (Handle.obj 2),
      Call.closesocket (Handle.obj 1)] }

/-- What `create_socket_pipe` leaves behind when a stray candidate is
discarded and the next candidate delivers the token. -/
def ex_result_rendezvous : SockResult :=
  { rv := 0, rd := Handle.obj 3, wr := Handle.obj 1, next := 4,
    calls := [Call.generate_random_bytes, Call.socket (Handle.obj 0), Call.bind (Handle.obj 0),
      Call.getsockname (Handle.obj 0), Call.listen (Handle.obj 0) 1,
      Call.socket (Handle.obj 1), Call.connect (Handle.obj 1),
      Call.send (Handle.obj 1) ex_token 8, Call.ioctlsocket (Handle.obj 0) 1,
      Call.select (Handle.obj 0) 1, Call.accept (Handle.obj 0) (Handle.obj 2),
      Call.ioctlsocket (Handle.obj 2) 0, Call.recv (Handle.obj 2) 8,
      Call.closesocket (Handle.obj 2),
      Call.select (Handle.obj 0) 1, Call.accept (Handle.obj 0) (Handle.obj 3),
      Call.ioctlsocket (Handle.obj 3) 0, Call.recv (Handle.obj 3) 8,
      Call.ioctlsocket (Handle.obj 3) 1,
      Call.closesocket (Handle.obj 0)] }

/-- The read end `apr_file_socket_pipe_create` builds on pool 7 from the run
`ex_result_rendezvous`. -/
def ex_read_end : apr_file_t :=
  { pool := 7, filehand := Handle.obj 3, ftype := APR_FILETYPE_SOCKET, timeout := 0,
    pOverlapped := none, ungetchar := -1, eof_hit := 0, filePtr := 0, bufpos := 0,
    dataRead := 0, direction := 0, mutex := none }

/-- The write end `apr_file_socket_pipe_create` builds on pool 7 from the run
`ex_result_rendezvous`. -/
def ex_write_end : apr_file_t :=
  { ex_read_end with filehand := Handle.obj 1, timeout := -1 }

/-- What `apr_file_socket_pipe_create` leaves behind on pool 7 for the run
`ex_result_rendezvous`. -/
def ex_pair : PairResult :=
  { rv := 0, in_ := some ex_read_end, out_ := some ex_write_end, next := 4,
    calls := ex_result_rendezvous.calls ++
      [Call.apr_pool_cleanup_register 7 ex_read_end CleanupFn.socket_pipe_cleanup,
       Call.apr_pool_cleanup_register 7 ex_write_end CleanupFn.socket_pipe_cleanup] }

/-- The outcomes of `ex_setup` except that `bind` fails and the error
translation reports `APR_SUCCESS` for it. -/
def ex_setup_bind_unreported : SetupOutcomes := { ex_setup with bind := Outcome.fail 0 }

/-- The read end `apr_file_socket_pipe_create` builds on pool 7 for
`ex_setup_bind_unreported`. -/
def ex_read_end_invalid : apr_file_t := { ex_read_end with filehand := INVALID_HANDLE_VALUE }

/-- The write end `apr_file_socket_pipe_create` builds on pool 7 for
`ex_setup_bind_unreported`. -/
def ex_write_end_invalid : apr_file_t := { ex_write_end with filehand := INVALID_HANDLE_VALUE }

/-- What `apr_file_socket_pipe_create` leaves behind on pool 7 for
`ex_setup_bind_unreported`. -/
def ex_pair_unreported : PairResult :=
  { rv := 0, in_ := some ex_read_end_invalid, out_ := some ex_write_end_invalid, next := 1,
    calls := [Call.generate_random_bytes, Call.socket (Handle.obj 0), Call.bind (Handle.obj 0),
      Call.closesocket (Handle.obj 0),
      Call.apr_pool_cleanup_register 7 ex_read_end_invalid CleanupFn.socket_pipe_cleanup,
      Call.apr_pool_cleanup_register 7 ex_write_end_invalid CleanupFn.socket_pipe_cleanup] }

/-- The outcomes of `ex_pipe_outcomes` except that `CreateNamedPipe` fails and
the error translation reports `APR_SUCCESS` for it. -/
def ex_pipe_outcomes_unreported : PipeOutcomes :=
  { ex_pipe_outcomes with CreateNamedPipe := Outcome.fail 0 }

/-! ## Pipe names: length -/

theorem hex_length_le (n : Nat) (h : n < 2 ^ 32) : (hex n).length ≤ 8 := by
  unfold hex
  by_cases h0 : n = 0
  · simp [h0]
  · have h1 := Nat.base_pow_length_digits_le 16 n (by norm_num) h0
    have h2 : 16 ^ (Nat.digits 16 n).length < 16 ^ 9 := by
      calc 16 ^ (Nat.digits 16 n).length ≤ 16 * n := h1
        _ < 16 ^ 9 := by norm_num; omega
    have := (Nat.pow_lt_pow_iff_right (by norm_num : 1 < 16)).mp h2
    simp [h0]
    omega

theorem apr_escape_hex_length (rand : Buf8) : (apr_escape_hex rand).length = 16 := by
  obtain ⟨l, hl⟩ := rand
  have : ∀ l : List (Fin 256),
      (l.flatMap (fun b => [hexChar (b.val / 16), hexChar (b.val % 16)])).length
        = 2 * l.length := by
    intro l
    induction l with
    | nil => simp
    | cons a t ih => simp [List.flatMap_cons, ih]; omega
  simp [apr_escape_hex, this, hl]

theorem format_pipe_name_length (pid : Int) (id : Nat) :
    (format_pipe_name pid id).length ≤ 36 := by
  have h1 : (hex (pid % 2 ^ (8 * sizeof_int)).toNat).length ≤ 8 := by
    apply hex_length_le
    have : (0 : Int) ≤ pid % 2 ^ (8 * sizeof_int) := Int.emod_nonneg _ (by norm_num [sizeof_int])
    have h2 : pid % 2 ^ (8 * sizeof_int) < 2 ^ (8 * sizeof_int) :=
      Int.emod_lt_of_pos _ (by norm_num [sizeof_int])
    simp only [sizeof_int] at *
    omega
  have h2 : (hex (id % 2 ^ (8 * sizeof_unsigned_long))).length ≤ 8 := by
    apply hex_length_le
    simp only [sizeof_unsigned_long]
    exact Nat.mod_lt _ (by norm_num)
  simp only [format_pipe_name, List.length_append, FMT_PIPE_NAME_head, List.length_cons,
    List.length_nil]
  omega

/-- C10: for every process id and every value of the call counter, the
formatted front part of the pipe name, the 16 hexadecimal characters of the
random bytes and the terminating NUL together fit in `name`; so `apr_snprintf`
stores its output untruncated and returns its length, and `apr_escape_hex`
writes its 16 characters and the NUL inside the buffer. -/
theorem pipe_name_fits (pid : Int) (id : Nat) (rand : Buf8) :
    (format_pipe_name pid id).length + 2 * sizeof_rand + 1 ≤ sizeof_name ∧
    apr_snprintf sizeof_name (format_pipe_name pid id)
      = (format_pipe_name pid id, (format_pipe_name pid id).length) ∧
    (apr_escape_hex rand).length = 2 * sizeof_rand ∧
    (apr_snprintf sizeof_name (format_pipe_name pid id)).2
      + (apr_escape_hex rand).length + 1 ≤ sizeof_name ∧
    (pipe_name pid id rand).length + 1 ≤ sizeof_name := by
  have h := format_pipe_name_length pid id
  have hs : sizeof_name = 58 := by decide
  have hr : sizeof_rand = 8 := rfl
  have he := apr_escape_hex_length rand
  have ht : (format_pipe_name pid id).take (sizeof_name - 1) = format_pipe_name pid id := by
    apply List.take_of_length_le
    omega
  refine ⟨by omega, ?_, by omega, ?_, ?_⟩
  · simp [apr_snprintf, ht]
  · simp only [apr_snprintf, ht]; omega
  · simp only [pipe_name, apr_snprintf, ht, List.length_append]; omega

/-- C7: `apr_file_pipe_timeout_set` succeeds exactly when the timeout is -1, or
the endpoint is pipe-typed and the timeout is 0 or the endpoint has an
asynchronous context; on success the stored timeout is the one given and
`apr_file_pipe_timeout_get` returns it; on failure the endpoint is unchanged,
the status being `APR_ENOTIMPL` for an endpoint that is not pipe-typed and
`APR_EINVAL` for a pipe without context and a nonzero finite timeout. -/
theorem timeout_set_contract (e : apr_file_t) (t : apr_interval_time_t) :
    ((apr_file_pipe_timeout_set e t).1 = APR_SUCCESS ↔
      (t = -1 ∨ (e.ftype = APR_FILETYPE_PIPE ∧ (t = 0 ∨ e.pOverlapped ≠ none)))) ∧
    ((apr_file_pipe_timeout_set e t).1 = APR_SUCCESS →
      (apr_file_pipe_timeout_set e t).2 = { e with timeout := t } ∧
      apr_file_pipe_timeout_get (apr_file_pipe_timeout_set e t).2 = (APR_SUCCESS, t)) ∧
    ((apr_file_pipe_timeout_set e t).1 ≠ APR_SUCCESS →
      (apr_file_pipe_timeout_set e t).2 = e ∧
      (e.ftype ≠ APR_FILETYPE_PIPE → (apr_file_pipe_timeout_set e t).1 = APR_ENOTIMPL) ∧
      (e.ftype = APR_FILETYPE_PIPE →
        (apr_file_pipe_timeout_set e t).1 = APR_EINVAL ∧ e.pOverlapped = none ∧
        t ≠ 0 ∧ t ≠ -1)) := by
  unfold apr_file_pipe_timeout_set apr_file_pipe_timeout_get
  by_cases h1 : t = -1
  · simp [h1]
  · by_cases h2 : e.ftype = APR_FILETYPE_PIPE
    · by_cases h3 : t = 0
      · simp [h1, h2, h3]
      · by_cases h4 : e.pOverlapped = none
        · simp [h1, h2, h3, h4, APR_EINVAL, APR_SUCCESS]
        · simp [h1, h2, h3, h4]
    · simp [h1, h2, APR_ENOTIMPL, APR_SUCCESS]


/-- C4: on a socket-typed endpoint two calls of `apr_file_socket_pipe_close` in
a row both return success; after the first the handle field is the invalid
marker, the second makes no `shutdown` and no `closesocket` call, and the
socket the endpoint held is shut down once and then closed once, by the first
call, with no other socket touched. -/
theorem socket_pipe_close_twice (file : apr_file_t) (rv1 rv2 : apr_status_t)
    (hty : file.ftype = APR_FILETYPE_SOCKET) :
    (apr_file_socket_pipe_close file rv1).1 = APR_SUCCESS ∧
    (apr_file_socket_pipe_close (apr_file_socket_pipe_close file rv1).2.1 rv2).1
      = APR_SUCCESS ∧
    (apr_file_socket_pipe_close file rv1).2.1.filehand = INVALID_HANDLE_VALUE ∧
    shut_down (apr_file_socket_pipe_close (apr_file_socket_pipe_close file rv1).2.1 rv2).2.2
      = [] ∧
    closed (apr_file_socket_pipe_close (apr_file_socket_pipe_close file rv1).2.1 rv2).2.2
      = [] ∧
    (file.filehand ≠ INVALID_HANDLE_VALUE →
      shut_down (apr_file_socket_pipe_close file rv1).2.2 = [file.filehand] ∧
      closed (apr_file_socket_pipe_close file rv1).2.2 = [file.filehand] ∧
      (apr_file_socket_pipe_close file rv1).2.2.take 2
        = [Call.shutdown_SD_BOTH file.filehand, Call.closesocket file.filehand]) := by
  obtain ⟨pool, fh, ty, tmo, ov, ug, eof, fp, bp, dr, dir, mtx⟩ := file
  simp only at hty
  subst hty
  by_cases hv : fh = INVALID_HANDLE_VALUE
  · subst hv
    cases mtx <;>
      simp [apr_file_socket_pipe_close, socket_pipe_cleanup, shut_down, closed,
        Call.shuts, Call.closes]
  · cases mtx <;>
      simp [apr_file_socket_pipe_close, socket_pipe_cleanup, hv, shut_down, closed,
        Call.shuts, Call.closes]

/-- C6 (amended): `file_pipe_create` is all-or-nothing, for every blocking
mode and all outcomes of its calls.  When every failed call reports a status
other than `APR_SUCCESS`, it returns success only when both native handles
were created, the two endpoints are then registered for cleanup, once each,
and no `file_cleanup` is run.  A return other than success registers nothing.
On the named-pipe path every such return has run `file_cleanup` on the read
end exactly once, and the status returned is that of the failed step (the
status of the random-byte source, or the translated error of `CreateNamedPipe`
or of the client open); when the client open of the write end fails,
`file_cleanup` is run exactly once on the write end and then exactly once on
the read end.  Below NT a failed `CreatePipe` returns its translated error
with nothing created, released or registered. -/
theorem pipe_create_all_or_nothing (blocking : apr_int32_t) (pool_in pool_out id : Nat)
    (o : PipeOutcomes) (next : Nat) (r : PipeResult)
    (hr : file_pipe_create blocking pool_in pool_out id o next = r) :
    (o.errors_reported → r.rv = APR_SUCCESS →
      (∃ a b, r.in_.filehand = Handle.obj a ∧ r.out_.filehand = Handle.obj b ∧ a ≠ b) ∧
      registered r.calls = [(pool_in, r.in_, CleanupFn.file_cleanup),
                            (pool_out, r.out_, CleanupFn.file_cleanup)] ∧
      cleaned r.calls = []) ∧
    (r.rv ≠ APR_SUCCESS → registered r.calls = []) ∧
    (o.os_level_nt = true → r.rv ≠ APR_SUCCESS →
      cleaned r.calls = [r.in_] ∨ (cleaned r.calls = [r.out_, r.in_] ∧ r.out_ ≠ r.in_)) ∧
    (o.os_level_nt = true → o.rand_rv ≠ APR_SUCCESS →
      r.rv = o.rand_rv ∧ cleaned r.calls = [r.in_]) ∧
    (o.os_level_nt = true → o.rand_rv = APR_SUCCESS →
      ∀ rv, o.CreateNamedPipe = Outcome.fail rv →
        r.rv = rv ∧ cleaned r.calls = [r.in_] ∧ r.in_.filehand = INVALID_HANDLE_VALUE) ∧
    (o.os_level_nt = true → o.rand_rv = APR_SUCCESS → o.CreateNamedPipe = Outcome.ok →
      ∀ rv, o.CreateFile = Outcome.fail rv →
        r.rv = rv ∧ cleaned r.calls = [r.out_, r.in_] ∧ r.out_ ≠ r.in_ ∧
        (∃ a, r.in_.filehand = Handle.obj a)) ∧
    (o.os_level_nt = false → ∀ rv, o.CreatePipe = Outcome.fail rv →
      r.rv = rv ∧ cleaned r.calls = [] ∧ registered r.calls = []) := by
  obtain ⟨nt, pid, ev_in, rand_rv, rand, cnp, ev_out, cf, cp⟩ := o
  subst hr
  cases nt with
  | false =>
    cases cp with
    | fail rv =>
      by_cases hz : rv = APR_SUCCESS <;>
        simp [file_pipe_create, hz, registered, Call.registers, cleaned, Call.cleans]
    | ok =>
      simp [file_pipe_create, new_pipe_file, registered, Call.registers, cleaned, Call.cleans]
  | true =>
    by_cases hrand : rand_rv = APR_SUCCESS
    · cases cnp with
      | fail rv =>
        by_cases hz : rv = APR_SUCCESS <;>
        by_cases hb : blocking = APR_WRITE_BLOCK ∨ blocking = APR_FULL_NONBLOCK <;>
          simp [file_pipe_create, hrand, hz, hb, attach_overlapped, registered,
            Call.registers, cleaned, Call.cleans, List.filterMap_append]
      | ok =>
        cases cf with
        | fail rv =>
          by_cases hz : rv = APR_SUCCESS <;>
          by_cases hb : blocking = APR_WRITE_BLOCK ∨ blocking = APR_FULL_NONBLOCK <;>
          by_cases hb2 : blocking = APR_READ_BLOCK ∨ blocking = APR_FULL_NONBLOCK <;>
            simp [file_pipe_create, hrand, hz, hb, hb2, attach_overlapped, registered,
              Call.registers, cleaned, Call.cleans, List.filterMap_append,
              INVALID_HANDLE_VALUE]
        | ok =>
          by_cases hb : blocking = APR_WRITE_BLOCK ∨ blocking = APR_FULL_NONBLOCK <;>
          by_cases hb2 : blocking = APR_READ_BLOCK ∨ blocking = APR_FULL_NONBLOCK <;>
            simp [file_pipe_create, hrand, hb, hb2, attach_overlapped, registered,
              Call.registers, cleaned, Call.cleans, List.filterMap_append,
              APR_SUCCESS] <;>
            (cases ev_in <;> cases ev_out <;> simp <;> omega)
    · by_cases hb : blocking = APR_WRITE_BLOCK ∨ blocking = APR_FULL_NONBLOCK <;>
        simp [file_pipe_create, hrand, hb, attach_overlapped, registered,
          Call.registers, cleaned, Call.cleans, List.filterMap_append]

theorem opened_append (a b : List Call) : opened (a ++ b) = opened a ++ opened b := by
  simp [opened, List.filterMap_append]

theorem closed_append (a b : List Call) : closed (a ++ b) = closed a ++ closed b := by
  simp [closed, List.filterMap_append]

theorem range_obj_succ (next n : Nat) (h : next + 1 ≤ n) :
    (List.range' next (n - next)).map Handle.obj
      = Handle.obj next :: (List.range' (next + 1) (n - (next + 1))).map Handle.obj := by
  have : n - next = (n - (next + 1)) + 1 := by omega
  rw [this, List.range'_succ]
  simp

theorem closed_rollback (ls rd wr : SOCKET) (rv : apr_status_t) (next : Nat) :
    closed (socket_pipe_rollback ls rd wr rv next).calls
      = ls :: ((if rd ≠ INVALID_SOCKET then [rd] else [])
          ++ (if wr ≠ INVALID_SOCKET then [wr] else [])) := by
  by_cases h1 : rd = INVALID_SOCKET <;> by_cases h2 : wr = INVALID_SOCKET <;>
    simp [socket_pipe_rollback, closed, Call.closes, h1, h2]

theorem opened_rollback (ls rd wr : SOCKET) (rv : apr_status_t) (next : Nat) :
    opened (socket_pipe_rollback ls rd wr rv next).calls = [] := by
  by_cases h1 : rd = INVALID_SOCKET <;> by_cases h2 : wr = INVALID_SOCKET <;>
    simp [socket_pipe_rollback, opened, Call.opens, h1, h2]

theorem obj_ne_invalid (n : Nat) : Handle.obj n ≠ INVALID_SOCKET := by
  simp [INVALID_SOCKET]

theorem accept_loop_rollback (ls wr : SOCKET) (uid : Buf8) (hwr : wr ≠ INVALID_SOCKET) :
    ∀ (its : List Iteration) (rd : SOCKET) (next : Nat) (r : SockResult),
      accept_loop ls wr uid rd next its = some r → r.rv ≠ APR_SUCCESS →
      r.rd = INVALID_SOCKET ∧ r.wr = INVALID_SOCKET ∧ next ≤ r.next ∧
      opened r.calls = (List.range' next (r.next - next)).map Handle.obj ∧
      (closed r.calls).Perm (opened r.calls ++ [ls, wr]) := by
  intro its
  induction its with
  | nil => intro rd next r h; simp [accept_loop] at h
  | cons it rest ih =>
    intro rd next r h hrv
    by_cases h1 : it.select_ret = SOCKET_ERROR
    · simp only [accept_loop, h1, if_true] at h
      obtain ⟨r1, hr1, rfl⟩ := Option.map_eq_some'.mp h
      have := ih rd next r1 hr1 (by simpa [SockResult.after] using hrv)
      simpa [SockResult.after, opened_append, closed_append, opened, closed, Call.opens,
        Call.closes] using this
    by_cases h2 : it.select_ret = 0
    · simp only [accept_loop, h1, h2, if_true, if_false] at h
      obtain ⟨r1, hr1, rfl⟩ := Option.map_eq_some'.mp h
      have := ih rd next r1 hr1 (by simpa [SockResult.after] using hrv)
      simpa [SockResult.after, opened_append, closed_append, opened, closed, Call.opens,
        Call.closes] using this
    cases hacc : it.accept with
    | fail rv =>
      simp only [accept_loop, h1, h2, hacc, if_false, Option.some.injEq] at h
      subst h
      simp only [SockResult.after, opened_append, closed_append, closed_rollback,
        opened_rollback]
      simp [socket_pipe_rollback, opened, closed, Call.opens, Call.closes, hwr]
    | ok =>
      cases hv : it.ioctl_verify with
      | fail rv =>
        simp only [accept_loop, h1, h2, hacc, hv, if_false, Option.some.injEq] at h
        subst h
        simp only [SockResult.after, opened_append, closed_append, closed_rollback,
          opened_rollback]
        simp [socket_pipe_rollback, opened, closed, Call.opens, Call.closes, hwr,
          obj_ne_invalid]
        exact List.Perm.swap _ _ _
      | ok =>
        by_cases h3 : it.recv_ret = SOCKET_ERROR
        · simp only [accept_loop, h1, h2, hacc, hv, h3, if_false, if_true,
            Option.some.injEq] at h
          subst h
          simp only [SockResult.after, opened_append, closed_append, closed_rollback,
            opened_rollback]
          simp [socket_pipe_rollback, opened, closed, Call.opens, Call.closes, hwr,
            obj_ne_invalid]
          exact List.Perm.swap _ _ _
        by_cases h4 : it.recv_ret = 8 ∧ memcmp8_eq it.iid uid = true
        · cases hf : it.ioctl_final with
          | fail rv =>
            simp only [accept_loop, if_neg h1, if_neg h2, hacc, hv, if_neg h3, if_pos h4, hf,
              Option.some.injEq] at h
            subst h
            simp only [SockResult.after, opened_append, closed_append, closed_rollback,
              opened_rollback]
            simp [socket_pipe_rollback, opened, closed, Call.opens, Call.closes, hwr,
              obj_ne_invalid]
            exact List.Perm.swap _ _ _
          | ok =>
            simp only [accept_loop, if_neg h1, if_neg h2, hacc, hv, if_neg h3, if_pos h4, hf,
              Option.some.injEq] at h
            subst h
            simp [APR_SUCCESS] at hrv
        · simp only [accept_loop, if_neg h1, if_neg h2, hacc, hv, if_neg h3, if_neg h4] at h
          obtain ⟨r1, hr1, rfl⟩ := Option.map_eq_some'.mp h
          obtain ⟨i1, i2, i3, i4, i5⟩ :=
            ih (Handle.obj next) (next + 1) r1 hr1 (by simpa [SockResult.after] using hrv)
          simp only [SockResult.after, opened_append, closed_append]
          refine ⟨i1, i2, by omega, ?_, ?_⟩
          · rw [range_obj_succ next r1.next i3, i4]
            simp [opened, Call.opens, obj_ne_invalid]
          · simp only [opened, closed] at i5 ⊢
            simp [Call.opens, Call.closes, obj_ne_invalid]
            exact i5

theorem nodup_range_obj (next n : Nat) : ((List.range' next n).map Handle.obj).Nodup := by
  apply List.Nodup.map
  · intro a b h
    injection h
  · exact List.nodup_range' next n

/-- C1: whenever `create_socket_pipe` returns a status other than success,
`*rd` and `*wr` are both `INVALID_SOCKET`, and the `closesocket` calls made are
exactly the sockets created during the call (the listening socket, the
connecting socket and every accepted candidate), each one once: none is left
open and none is closed twice, strays discarded earlier in the loop included. -/
theorem socket_pipe_failure_releases_all (o : SetupOutcomes) (its : List Iteration)
    (next : Nat) (r : SockResult)
    (h : create_socket_pipe o its next = some r) (hrv : r.rv ≠ APR_SUCCESS) :
    r.rd = INVALID_SOCKET ∧ r.wr = INVALID_SOCKET ∧
    (closed r.calls).Perm (opened r.calls) ∧ (opened r.calls).Nodup := by
  obtain ⟨rand_rv, uid, sls, bnd, gsn, lsn, swr, con, sret, serr, ils⟩ := o
  unfold create_socket_pipe at h
  simp only at h
  by_cases hrand : rand_rv = APR_SUCCESS
  swap
  · simp only [ne_eq, hrand, not_false_eq_true, if_true, Option.some.injEq] at h
    subst h
    simp [opened, closed, Call.opens, Call.closes]
  simp only [ne_eq, hrand, not_true_eq_false, if_false] at h
  cases sls with
  | fail rv =>
    simp only [Option.some.injEq] at h
    subst h
    simp [opened, closed, Call.opens, Call.closes]
  | ok =>
  cases bnd with
  | fail rv =>
    simp only [Option.some.injEq] at h
    subst h
    simp only [SockResult.after, opened_append, closed_append, closed_rollback,
      opened_rollback]
    simp [socket_pipe_rollback, opened, closed, Call.opens, Call.closes, obj_ne_invalid]
  | ok =>
  cases gsn with
  | fail rv =>
    simp only [Option.some.injEq] at h
    subst h
    simp only [SockResult.after, opened_append, closed_append, closed_rollback,
      opened_rollback]
    simp [socket_pipe_rollback, opened, closed, Call.opens, Call.closes, obj_ne_invalid]
  | ok =>
  cases lsn with
  | fail rv =>
    simp only [Option.some.injEq] at h
    subst h
    simp only [SockResult.after, opened_append, closed_append, closed_rollback,
      opened_rollback]
    simp [socket_pipe_rollback, opened, closed, Call.opens, Call.closes, obj_ne_invalid]
  | ok =>
  cases swr with
  | fail rv =>
    simp only [Option.some.injEq] at h
    subst h
    simp only [SockResult.after, opened_append, closed_append, closed_rollback,
      opened_rollback]
    simp [socket_pipe_rollback, opened, closed, Call.opens, Call.closes, obj_ne_invalid]
  | ok =>
  cases con with
  | fail rv =>
    simp only [Option.some.injEq] at h
    subst h
    simp only [SockResult.after, opened_append, closed_append, closed_rollback,
      opened_rollback]
    simp [socket_pipe_rollback, opened, closed, Call.opens, Call.closes, obj_ne_invalid]
  | ok =>
  by_cases hs : sret = 8
  swap
  · simp only [ne_eq, hs, not_false_eq_true, if_true, Option.some.injEq] at h
    subst h
    simp only [SockResult.after, opened_append, closed_append, closed_rollback,
      opened_rollback]
    simp [socket_pipe_rollback, opened, closed, Call.opens, Call.closes, obj_ne_invalid]
  simp only [ne_eq, hs, not_true_eq_false, if_false] at h
  cases ils with
  | fail rv =>
    simp only [Option.some.injEq] at h
    subst h
    simp only [SockResult.after, opened_append, closed_append, closed_rollback,
      opened_rollback]
    simp [socket_pipe_rollback, opened, closed, Call.opens, Call.closes, obj_ne_invalid]
  | ok =>
    simp only at h
    obtain ⟨r1, hr1, rfl⟩ := Option.map_eq_some'.mp h
    obtain ⟨i1, i2, i3, i4, i5⟩ :=
      accept_loop_rollback (Handle.obj next) (Handle.obj (next + 1)) uid (obj_ne_invalid _)
        its INVALID_SOCKET (next + 2) r1 hr1 (by simpa [SockResult.after] using hrv)
    have hopen : opened (SockResult.after
        [Call.generate_random_bytes, Call.socket (Handle.obj next), Call.bind (Handle.obj next),
          Call.getsockname (Handle.obj next), Call.listen (Handle.obj next) 1,
          Call.socket (Handle.obj (next + 1)), Call.connect (Handle.obj (next + 1)),
          Call.send (Handle.obj (next + 1)) uid 8,
          Call.ioctlsocket (Handle.obj next) 1] r1).calls
        = (List.range' next (r1.next - next)).map Handle.obj := by
      simp only [SockResult.after, opened_append]
      rw [range_obj_succ next r1.next (by omega),
        range_obj_succ (next + 1) r1.next (by omega), i4]
      simp [opened, Call.opens, obj_ne_invalid]
    refine ⟨i1, i2, ?_, ?_⟩
    · simp only [SockResult.after, opened_append, closed_append]
      simp only [opened, closed] at i5 ⊢
      simp [Call.opens, Call.closes, obj_ne_invalid]
      refine i5.trans ?_
      exact List.perm_append_comm
    · rw [hopen]
      exact nodup_range_obj _ _

theorem accept_loop_idle (ls wr : SOCKET) (uid : Buf8) (rd : SOCKET) (next : Nat)
    (it : Iteration) (rest : List Iteration) (h : it.idle) :
    accept_loop ls wr uid rd next (it :: rest)
      = (accept_loop ls wr uid rd next rest).map
          (SockResult.after (Call.select ls it.select_ret ::
            (if it.select_ret = SOCKET_ERROR then [Call.Sleep 100] else []))) := by
  by_cases h1 : it.select_ret = SOCKET_ERROR
  · simp only [accept_loop, if_pos h1]
  · have h2 : it.select_ret = 0 := h.resolve_left h1
    simp only [accept_loop, if_neg h1, if_pos h2]

theorem accept_loop_stray (ls wr : SOCKET) (uid : Buf8) (rd : SOCKET) (next : Nat)
    (it : Iteration) (rest : List Iteration) (h : it.stray uid) :
    accept_loop ls wr uid rd next (it :: rest)
      = (accept_loop ls wr uid (Handle.obj next) (next + 1) rest).map
          (SockResult.after [Call.select ls it.select_ret, Call.accept ls (Handle.obj next),
            Call.ioctlsocket (Handle.obj next) 0,
            Call.recv (Handle.obj next) it.recv_ret, Call.closesocket (Handle.obj next)]) := by
  obtain ⟨s1, s2, s3, s4, s5⟩ := h
  have s1a : ¬ it.select_ret = SOCKET_ERROR := fun h => s1 (Or.inl h)
  have s1b : ¬ it.select_ret = 0 := fun h => s1 (Or.inr h)
  have s6 : ¬ (it.recv_ret = 8 ∧ memcmp8_eq it.iid uid = true) := by
    simpa [memcmp8_eq] using s5
  simp only [accept_loop, if_neg s1a, if_neg s1b, s2, s3, if_neg s4, if_neg s6]

theorem accept_loop_match (ls wr : SOCKET) (uid : Buf8) (rd : SOCKET) (next : Nat)
    (it : Iteration) (rest : List Iteration) (h : it.yields_token uid) :
    accept_loop ls wr uid rd next (it :: rest)
      = match it.ioctl_final with
        | Outcome.fail rv =>
          some ((socket_pipe_rollback ls (Handle.obj next) wr rv (next + 1)).after
            [Call.select ls it.select_ret, Call.accept ls (Handle.obj next),
             Call.ioctlsocket (Handle.obj next) 0,
             Call.recv (Handle.obj next) it.recv_ret,
             Call.ioctlsocket (Handle.obj next) 1])
        | Outcome.ok =>
          some { rv := 0, rd := Handle.obj next, wr := wr, next := next + 1,
                 calls := [Call.select ls it.select_ret, Call.accept ls (Handle.obj next),
                   Call.ioctlsocket (Handle.obj next) 0,
                   Call.recv (Handle.obj next) it.recv_ret,
                   Call.ioctlsocket (Handle.obj next) 1, Call.closesocket ls] } := by
  obtain ⟨m1, m2, m3, m4, m5⟩ := h
  have m1a : ¬ it.select_ret = SOCKET_ERROR := fun h => m1 (Or.inl h)
  have m1b : ¬ it.select_ret = 0 := fun h => m1 (Or.inr h)
  have m6 : ¬ it.recv_ret = SOCKET_ERROR := by rw [m4]; decide
  have m7 : it.recv_ret = 8 ∧ memcmp8_eq it.iid uid = true := ⟨m4, by simp [memcmp8_eq, m5]⟩
  simp only [accept_loop, if_neg m1a, if_neg m1b, m2, m3, if_neg m6, if_pos m7]

theorem accepted_cons_idle (it : Iteration) (rest : List Iteration) (h : it.idle) :
    accepted (it :: rest) = accepted rest := by
  unfold accepted
  rw [List.countP_cons_of_neg]
  simp only [decide_eq_true_eq, not_not]
  exact h

theorem accepted_cons_accept (it : Iteration) (rest : List Iteration) (h : ¬ it.idle) :
    accepted (it :: rest) = accepted rest + 1 := by
  unfold accepted
  rw [List.countP_cons_of_pos]
  simp only [decide_eq_true_eq]
  exact h

theorem accept_loop_discards_strays (ls wr : SOCKET) (uid : Buf8) (m : Iteration)
    (post : List Iteration) (hm : m.yields_token uid) (hfin : m.ioctl_final = Outcome.ok) :
    ∀ (pre : List Iteration) (rd : SOCKET) (next : Nat),
      (∀ it ∈ pre, it.idle ∨ it.stray uid) →
      ∃ r, accept_loop ls wr uid rd next (pre ++ m :: post) = some r ∧
        r.rv = APR_SUCCESS ∧ r.wr = wr ∧ r.rd = Handle.obj (next + accepted pre) ∧
        r.next = next + accepted pre + 1 ∧
        opened r.calls = (List.range' next (accepted pre + 1)).map Handle.obj ∧
        closed r.calls = (List.range' next (accepted pre)).map Handle.obj ++ [ls] := by
  intro pre
  induction pre with
  | nil =>
    intro rd next _
    rw [List.nil_append, accept_loop_match ls wr uid rd next m post hm, hfin]
    refine ⟨_, rfl, ?_⟩
    simp [accepted, opened, closed, Call.opens, Call.closes, obj_ne_invalid, APR_SUCCESS]
  | cons it rest ih =>
    intro rd next hpre
    have hrest : ∀ it ∈ rest, it.idle ∨ it.stray uid :=
      fun x hx => hpre x (List.mem_cons_of_mem _ hx)
    rcases hpre it (List.mem_cons_self _ _) with hidle | hstray
    · obtain ⟨r1, e1, e2, e3, e4, e5, e6, e7⟩ := ih rd next hrest
      rw [List.cons_append, accept_loop_idle ls wr uid rd next it _ hidle, e1,
        accepted_cons_idle it rest hidle]
      refine ⟨_, rfl, ?_⟩
      simp only [SockResult.after, opened_append, closed_append]
      refine ⟨e2, e3, e4, e5, ?_, ?_⟩
      · rw [e6]; by_cases h1 : it.select_ret = SOCKET_ERROR <;> simp [opened, Call.opens, h1]
      · rw [e7]; by_cases h1 : it.select_ret = SOCKET_ERROR <;> simp [closed, Call.closes, h1]
    · obtain ⟨r1, e1, e2, e3, e4, e5, e6, e7⟩ := ih (Handle.obj next) (next + 1) hrest
      rw [List.cons_append, accept_loop_stray ls wr uid rd next it _ hstray, e1,
        accepted_cons_accept it rest hstray.1]
      refine ⟨_, rfl, ?_⟩
      simp only [SockResult.after, opened_append, closed_append]
      refine ⟨e2, e3, ?_, ?_, ?_, ?_⟩
      · rw [e4]; congr 1; omega
      · rw [e5]; omega
      · rw [e6]
        simp [opened, Call.opens, obj_ne_invalid, List.range'_succ]
      · rw [e7]
        simp [closed, Call.closes, List.range'_succ]

theorem create_socket_pipe_of_setup (o : SetupOutcomes) (its : List Iteration) (next : Nat)
    (hs : o.succeeds) :
    create_socket_pipe o its next
      = (accept_loop (Handle.obj next) (Handle.obj (next + 1)) o.uid INVALID_SOCKET
          (next + 2) its).map
          (SockResult.after
            [Call.generate_random_bytes, Call.socket (Handle.obj next),
             Call.bind (Handle.obj next), Call.getsockname (Handle.obj next),
             Call.listen (Handle.obj next) 1, Call.socket (Handle.obj (next + 1)),
             Call.connect (Handle.obj (next + 1)),
             Call.send (Handle.obj (next + 1)) o.uid o.send_ret,
             Call.ioctlsocket (Handle.obj next) 1]) := by
  obtain ⟨h1, h2, h3, h4, h5, h6, h7, h8, h9⟩ := hs
  have h8' : ¬ o.send_ret ≠ 8 := not_not.mpr h8
  have h1' : ¬ o.rand_rv ≠ APR_SUCCESS := not_not.mpr h1
  simp only [create_socket_pipe, if_neg h1', h2, h3, h4, h5, h6, h7, if_neg h8', h9]

/-- C2 (amended): when everything before the loop succeeds, every pass before
the decisive one is idle or accepts a stray candidate whose read is not an
error and is not exactly the token, and the decisive pass accepts a candidate
that yields exactly the token and is then switched to non-blocking mode
successfully, `create_socket_pipe` returns success with `*rd` the decisive
candidate and `*wr` the connecting socket; the `closesocket` calls made are the
strays, each once and in order, followed by the listening socket, so neither
returned socket has been closed.  A mismatch is never reported as an error. -/
theorem socket_pipe_discards_strays (o : SetupOutcomes) (pre : List Iteration)
    (m : Iteration) (post : List Iteration) (next : Nat)
    (hs : o.succeeds) (hpre : ∀ it ∈ pre, it.idle ∨ it.stray o.uid)
    (hm : m.yields_token o.uid) (hfin : m.ioctl_final = Outcome.ok) :
    ∃ r, create_socket_pipe o (pre ++ m :: post) next = some r ∧
      r.rv = APR_SUCCESS ∧
      r.wr = Handle.obj (next + 1) ∧
      r.rd = Handle.obj (next + 2 + accepted pre) ∧
      opened r.calls = (List.range' next (accepted pre + 3)).map Handle.obj ∧
      closed r.calls
        = (List.range' (next + 2) (accepted pre)).map Handle.obj ++ [Handle.obj next] ∧
      r.rd ∉ closed r.calls ∧ r.wr ∉ closed r.calls := by
  obtain ⟨r1, e1, e2, e3, e4, e5, e6, e7⟩ :=
    accept_loop_discards_strays (Handle.obj next) (Handle.obj (next + 1)) o.uid m post hm hfin
      pre INVALID_SOCKET (next + 2) hpre
  rw [create_socket_pipe_of_setup o _ next hs, e1]
  refine ⟨_, rfl, ?_⟩
  simp only [SockResult.after, opened_append, closed_append]
  have hc : closed
      [Call.generate_random_bytes, Call.socket (Handle.obj next),
       Call.bind (Handle.obj next), Call.getsockname (Handle.obj next),
       Call.listen (Handle.obj next) 1, Call.socket (Handle.obj (next + 1)),
       Call.connect (Handle.obj (next + 1)),
       Call.send (Handle.obj (next + 1)) o.uid o.send_ret,
       Call.ioctlsocket (Handle.obj next) 1] = [] := by
    simp [closed, Call.closes]
  have ho : opened
      [Call.generate_random_bytes, Call.socket (Handle.obj next),
       Call.bind (Handle.obj next), Call.getsockname (Handle.obj next),
       Call.listen (Handle.obj next) 1, Call.socket (Handle.obj (next + 1)),
       Call.connect (Handle.obj (next + 1)),
       Call.send (Handle.obj (next + 1)) o.uid o.send_ret,
       Call.ioctlsocket (Handle.obj next) 1]
      = [Handle.obj next, Handle.obj (next + 1)] := by
    simp [opened, Call.opens, obj_ne_invalid]
  rw [hc, ho, e6, e7, e3, e4]
  refine ⟨e2, rfl, rfl, ?_, rfl, ?_, ?_⟩
  · simp [List.range'_succ]
  · simp [List.mem_range']
    omega
  · simp [List.mem_range']
    omega

theorem modes_set_append (s : SOCKET) (a b : List Call) :
    modes_set s (a ++ b) = modes_set s a ++ modes_set s b := by
  simp [modes_set, List.filterMap_append]

theorem modes_set_rollback (s ls rd wr : SOCKET) (rv : apr_status_t) (next : Nat) :
    modes_set s (socket_pipe_rollback ls rd wr rv next).calls = [] := by
  by_cases h1 : rd = INVALID_SOCKET <;> by_cases h2 : wr = INVALID_SOCKET <;>
    simp [socket_pipe_rollback, modes_set, Call.sets_mode, h1, h2]

theorem Outcome.reported_fail {rv : apr_status_t} (h : (Outcome.fail rv).reported) :
    rv ≠ APR_SUCCESS := fun e => h (by rw [e])

theorem accept_loop_success (ls wr : SOCKET) (uid : Buf8) :
    ∀ (its : List Iteration) (rd : SOCKET) (next : Nat) (r : SockResult),
      (∀ it ∈ its, it.errors_reported) →
      accept_loop ls wr uid rd next its = some r → r.rv = APR_SUCCESS →
      ∃ c, next ≤ c ∧ r.rd = Handle.obj c ∧ r.wr = wr ∧
        modes_set (Handle.obj c) r.calls = [0, 1] ∧
        ∀ s, (∀ k, next ≤ k → s ≠ Handle.obj k) → modes_set s r.calls = [] := by
  intro its
  induction its with
  | nil => intro rd next r _ h; simp [accept_loop] at h
  | cons it rest ih =>
    intro rd next r herr h hrv
    have hrest : ∀ it ∈ rest, it.errors_reported :=
      fun x hx => herr x (List.mem_cons_of_mem _ hx)
    obtain ⟨g1, g2, g3, g4⟩ := herr it (List.mem_cons_self _ _)
    by_cases hidle : it.idle
    · rw [accept_loop_idle ls wr uid rd next it rest hidle] at h
      obtain ⟨r1, hr1, rfl⟩ := Option.map_eq_some'.mp h
      obtain ⟨c, c1, c2, c3, c4, c5⟩ :=
        ih rd next r1 hrest hr1 (by simpa [SockResult.after] using hrv)
      refine ⟨c, c1, c2, c3, ?_, ?_⟩
      · simp only [SockResult.after, modes_set_append, c4]
        by_cases e : it.select_ret = SOCKET_ERROR <;> simp [modes_set, Call.sets_mode, e]
      · intro s hs
        simp only [SockResult.after, modes_set_append, c5 s hs]
        by_cases e : it.select_ret = SOCKET_ERROR <;> simp [modes_set, Call.sets_mode, e]
    have h1 : ¬ it.select_ret = SOCKET_ERROR := fun e => hidle (Or.inl e)
    have h2 : ¬ it.select_ret = 0 := fun e => hidle (Or.inr e)
    cases hacc : it.accept with
    | fail rv =>
      simp only [accept_loop, if_neg h1, if_neg h2, hacc, Option.some.injEq] at h
      subst h
      rw [hacc] at g1
      exact absurd hrv (Outcome.reported_fail g1)
    | ok =>
      cases hv : it.ioctl_verify with
      | fail rv =>
        simp only [accept_loop, if_neg h1, if_neg h2, hacc, hv, Option.some.injEq] at h
        subst h
        rw [hv] at g2
        exact absurd hrv (Outcome.reported_fail g2)
      | ok =>
        by_cases h3 : it.recv_ret = SOCKET_ERROR
        · simp only [accept_loop, if_neg h1, if_neg h2, hacc, hv, if_pos h3,
            Option.some.injEq] at h
          subst h
          exact absurd hrv (g3 h3)
        by_cases h4 : it.recv_ret = 8 ∧ memcmp8_eq it.iid uid = true
        · cases hf : it.ioctl_final with
          | fail rv =>
            simp only [accept_loop, if_neg h1, if_neg h2, hacc, hv, if_neg h3, if_pos h4, hf,
              Option.some.injEq] at h
            subst h
            rw [hf] at g4
            exact absurd hrv (Outcome.reported_fail g4)
          | ok =>
            simp only [accept_loop, if_neg h1, if_neg h2, hacc, hv, if_neg h3, if_pos h4, hf,
              Option.some.injEq] at h
            subst h
            refine ⟨next, le_refl _, rfl, rfl, ?_, ?_⟩
            · simp [modes_set, Call.sets_mode]
            · intro s hs
              have : ¬ Handle.obj next = s := fun e => hs next (le_refl _) e.symm
              simp [modes_set, Call.sets_mode, this]
        · simp only [accept_loop, if_neg h1, if_neg h2, hacc, hv, if_neg h3, if_neg h4] at h
          obtain ⟨r1, hr1, rfl⟩ := Option.map_eq_some'.mp h
          obtain ⟨c, c1, c2, c3, c4, c5⟩ :=
            ih (Handle.obj next) (next + 1) r1 hrest hr1
              (by simpa [SockResult.after] using hrv)
          refine ⟨c, by omega, c2, c3, ?_, ?_⟩
          · simp only [SockResult.after, modes_set_append, c4]
            have : ¬ next = c := by omega
            simp [modes_set, Call.sets_mode, this]
          · intro s hs
            have : ¬ Handle.obj next = s := fun e => hs next (le_refl _) e.symm
            simp only [SockResult.after, modes_set_append,
              c5 s (fun k hk => hs k (by omega))]
            simp [modes_set, Call.sets_mode, this]

theorem create_socket_pipe_success (o : SetupOutcomes) (its : List Iteration) (next : Nat)
    (r : SockResult) (herr : o.errors_reported) (hits : ∀ it ∈ its, it.errors_reported)
    (h : create_socket_pipe o its next = some r) (hrv : r.rv = APR_SUCCESS) :
    ∃ c, r.rd = Handle.obj c ∧ r.wr = Handle.obj (next + 1) ∧
      modes_set r.rd r.calls = [0, 1] ∧ modes_set r.wr r.calls = [] := by
  obtain ⟨rand_rv, uid, sls, bnd, gsn, lsn, swr, con, sret, serr, ils⟩ := o
  obtain ⟨g1, g2, g3, g4, g5, g6, g7⟩ := herr
  simp only at g1 g2 g3 g4 g5 g6 g7
  unfold create_socket_pipe at h
  simp only at h
  by_cases hrand : rand_rv = APR_SUCCESS
  swap
  · simp only [ne_eq, hrand, not_false_eq_true, if_true, Option.some.injEq] at h
    subst h
    exact absurd hrv hrand
  simp only [ne_eq, hrand, not_true_eq_false, if_false] at h
  cases sls with
  | fail rv =>
    simp only [Option.some.injEq] at h
    subst h
    exact absurd hrv (Outcome.reported_fail g1)
  | ok =>
  cases bnd with
  | fail rv =>
    simp only [Option.some.injEq] at h
    subst h
    exact absurd hrv (Outcome.reported_fail g2)
  | ok =>
  cases gsn with
  | fail rv =>
    simp only [Option.some.injEq] at h
    subst h
    exact absurd hrv (Outcome.reported_fail g3)
  | ok =>
  cases lsn with
  | fail rv =>
    simp only [Option.some.injEq] at h
    subst h
    exact absurd hrv (Outcome.reported_fail g4)
  | ok =>
  cases swr with
  | fail rv =>
    simp only [Option.some.injEq] at h
    subst h
    exact absurd hrv (Outcome.reported_fail g5)
  | ok =>
  cases con with
  | fail rv =>
    simp only [Option.some.injEq] at h
    subst h
    exact absurd hrv (Outcome.reported_fail g6)
  | ok =>
  by_cases hs : sret = 8
  swap
  · simp only [ne_eq, hs, not_false_eq_true, if_true, Option.some.injEq] at h
    subst h
    exfalso
    by_cases he : serr = 0
    · simp [SockResult.after, socket_pipe_rollback, he, APR_EINVAL, APR_SUCCESS] at hrv
    · simp [SockResult.after, socket_pipe_rollback, he, APR_SUCCESS] at hrv
  simp only [ne_eq, hs, not_true_eq_false, if_false] at h
  cases ils with
  | fail rv =>
    simp only [Option.some.injEq] at h
    subst h
    exact absurd hrv (Outcome.reported_fail g7)
  | ok =>
    simp only at h
    obtain ⟨r1, hr1, rfl⟩ := Option.map_eq_some'.mp h
    obtain ⟨c, c1, c2, c3, c4, c5⟩ :=
      accept_loop_success (Handle.obj next) (Handle.obj (next + 1)) uid
        its INVALID_SOCKET (next + 2) r1 hits hr1 (by simpa [SockResult.after] using hrv)
    refine ⟨c, c2, c3, ?_, ?_⟩
    · have e1 : ¬ next = c := by omega
      have e2 : ¬ next + 1 = c := by omega
      simp only [SockResult.after, modes_set_append, c2, c4]
      simp [modes_set, Call.sets_mode, e1, e2]
    · simp only [SockResult.after, modes_set_append, c3]
      rw [c5 (Handle.obj (next + 1)) (fun k hk e => by injection e; omega)]
      simp [modes_set, Call.sets_mode]

theorem registered_append (a b : List Call) :
    registered (a ++ b) = registered a ++ registered b := by
  simp [registered, List.filterMap_append]

theorem registered_rollback (ls rd wr : SOCKET) (rv : apr_status_t) (next : Nat) :
    registered (socket_pipe_rollback ls rd wr rv next).calls = [] := by
  by_cases h1 : rd = INVALID_SOCKET <;> by_cases h2 : wr = INVALID_SOCKET <;>
    simp [socket_pipe_rollback, registered, Call.registers, h1, h2]

theorem accept_loop_registers_nothing (ls wr : SOCKET) (uid : Buf8) :
    ∀ (its : List Iteration) (rd : SOCKET) (next : Nat) (r : SockResult),
      accept_loop ls wr uid rd next its = some r → registered r.calls = [] := by
  intro its
  induction its with
  | nil => intro rd next r h; simp [accept_loop] at h
  | cons it rest ih =>
    intro rd next r h
    rw [accept_loop] at h
    split at h
    · obtain ⟨r1, hr1, rfl⟩ := Option.map_eq_some'.mp h
      simp only [SockResult.after, registered_append, ih rd next r1 hr1]
      simp [registered, Call.registers]
    split at h
    · obtain ⟨r1, hr1, rfl⟩ := Option.map_eq_some'.mp h
      simp only [SockResult.after, registered_append, ih rd next r1 hr1]
      simp [registered, Call.registers]
    split at h
    · simp only [Option.some.injEq] at h
      subst h
      simp only [SockResult.after, registered_append, registered_rollback]
      simp [registered, Call.registers]
    split at h
    · simp only [Option.some.injEq] at h
      subst h
      simp only [SockResult.after, registered_append, registered_rollback]
      simp [registered, Call.registers]
    split at h
    · simp only [Option.some.injEq] at h
      subst h
      simp only [SockResult.after, registered_append, registered_rollback]
      simp [registered, Call.registers]
    split at h
    · split at h
      · simp only [Option.some.injEq] at h
        subst h
        simp only [SockResult.after, registered_append, registered_rollback]
        simp [registered, Call.registers]
      · simp only [Option.some.injEq] at h
        subst h
        simp [registered, Call.registers]
    · obtain ⟨r1, hr1, rfl⟩ := Option.map_eq_some'.mp h
      simp only [SockResult.after, registered_append, ih _ _ r1 hr1]
      simp [registered, Call.registers]

theorem create_socket_pipe_registers_nothing (o : SetupOutcomes) (its : List Iteration)
    (next : Nat) (r : SockResult) (h : create_socket_pipe o its next = some r) :
    registered r.calls = [] := by
  unfold create_socket_pipe at h
  repeat' split at h
  all_goals first
    | (simp only [Option.some.injEq] at h
       subst h
       simp only [SockResult.after, registered_append, registered_rollback]
       simp [registered, Call.registers])
    | (obtain ⟨r1, hr1, rfl⟩ := Option.map_eq_some'.mp h
       simp only [SockResult.after, registered_append,
         accept_loop_registers_nothing _ _ _ _ _ _ r1 hr1]
       simp [registered, Call.registers])

/-- C3 (amended): when every failed Winsock call reports a status other than
`APR_SUCCESS`, a successful `apr_file_socket_pipe_create` stores two
socket-typed endpoints with valid handles and no asynchronous context; the read end has
timeout 0 and the last `FIONBIO` mode change applied to its socket has a
non-zero argument (the mode changes applied to it are 0 and then 1); the write
end has timeout -1 and no mode change was ever applied to its socket.  When
the call fails (whatever the failed calls report) no endpoint is stored and
nothing is registered for cleanup. -/
theorem socket_pipe_create_endpoints (p : Nat) (o : SetupOutcomes) (its : List Iteration)
    (next : Nat) (r : PairResult)
    (h : apr_file_socket_pipe_create p o its next = some r) :
    (o.errors_reported → (∀ it ∈ its, it.errors_reported) → r.rv = APR_SUCCESS →
      ∃ fin fout, r.in_ = some fin ∧ r.out_ = some fout ∧
        fin.ftype = APR_FILETYPE_SOCKET ∧ fout.ftype = APR_FILETYPE_SOCKET ∧
        fin.filehand ≠ INVALID_HANDLE_VALUE ∧ fout.filehand ≠ INVALID_HANDLE_VALUE ∧
        fin.pOverlapped = none ∧ fout.pOverlapped = none ∧
        fin.timeout = 0 ∧ modes_set fin.filehand r.calls = [0, 1] ∧
        (modes_set fin.filehand r.calls).getLast? = some 1 ∧
        fout.timeout = -1 ∧ modes_set fout.filehand r.calls = [] ∧
        registered r.calls = [(p, fin, CleanupFn.socket_pipe_cleanup),
                              (p, fout, CleanupFn.socket_pipe_cleanup)]) ∧
    (r.rv ≠ APR_SUCCESS → r.in_ = none ∧ r.out_ = none ∧ registered r.calls = []) := by
  unfold apr_file_socket_pipe_create at h
  cases hc : create_socket_pipe o its next with
  | none => simp [hc] at h
  | some r1 =>
    have hreg := create_socket_pipe_registers_nothing o its next r1 hc
    simp only [hc] at h
    by_cases hrv : r1.rv = APR_SUCCESS
    · have hrv' : ¬ r1.rv ≠ APR_SUCCESS := not_not.mpr hrv
      simp only [if_neg hrv', Option.some.injEq] at h
      subst h
      refine ⟨fun herr hits _ => ?_, fun hne => absurd hrv hne⟩
      obtain ⟨c, c1, c2, c3, c4⟩ := create_socket_pipe_success o its next r1 herr hits hc hrv
      refine ⟨_, _, rfl, rfl, rfl, rfl, ?_, ?_, rfl, rfl, rfl, ?_, ?_, rfl, ?_, ?_⟩
      · simp [c1, INVALID_HANDLE_VALUE]
      · simp [c2, INVALID_HANDLE_VALUE]
      · simp only [modes_set_append, c3]
        simp [modes_set, Call.sets_mode]
      · simp only [modes_set_append, c3]
        simp [modes_set, Call.sets_mode]
      · simp only [modes_set_append, c4]
        simp [modes_set, Call.sets_mode]
      · simp only [registered_append, hreg]
        simp [registered, Call.registers]
    · simp only [if_pos hrv, Option.some.injEq] at h
      subst h
      exact ⟨fun _ _ he => absurd he hrv, fun _ => ⟨rfl, rfl, hreg⟩⟩

theorem modes_before_recv_rollback (prev : Option Call) (ls rd wr : SOCKET)
    (rv : apr_status_t) (next : Nat) :
    modes_before_recv_from prev (socket_pipe_rollback ls rd wr rv next).calls = [] := by
  by_cases h1 : rd = INVALID_SOCKET <;> by_cases h2 : wr = INVALID_SOCKET <;>
    simp [socket_pipe_rollback, modes_before_recv_from, h1, h2]

theorem accept_loop_reads_blocking (ls wr : SOCKET) (uid : Buf8) :
    ∀ (its : List Iteration) (rd : SOCKET) (next : Nat) (r : SockResult) (prev : Option Call),
      accept_loop ls wr uid rd next its = some r →
      ∀ m ∈ modes_before_recv_from prev r.calls, m = some 0 := by
  intro its
  induction its with
  | nil => intro rd next r prev h; simp [accept_loop] at h
  | cons it rest ih =>
    intro rd next r prev h
    rw [accept_loop] at h
    split at h
    · obtain ⟨r1, hr1, rfl⟩ := Option.map_eq_some'.mp h
      simpa [SockResult.after, modes_before_recv_from] using ih rd next r1 _ hr1
    split at h
    · obtain ⟨r1, hr1, rfl⟩ := Option.map_eq_some'.mp h
      simpa [SockResult.after, modes_before_recv_from] using ih rd next r1 _ hr1
    split at h
    · simp only [Option.some.injEq] at h
      subst h
      simp [SockResult.after, socket_pipe_rollback, modes_before_recv_from, Call.sets_mode,
        obj_ne_invalid]
      try (split <;> simp [modes_before_recv_from])
    split at h
    · simp only [Option.some.injEq] at h
      subst h
      simp [SockResult.after, socket_pipe_rollback, modes_before_recv_from, Call.sets_mode,
        obj_ne_invalid]
      try (split <;> simp [modes_before_recv_from])
    split at h
    · simp only [Option.some.injEq] at h
      subst h
      simp [SockResult.after, socket_pipe_rollback, modes_before_recv_from, Call.sets_mode,
        obj_ne_invalid]
      try (split <;> simp [modes_before_recv_from])
    split at h
    · split at h
      · simp only [Option.some.injEq] at h
        subst h
        simp [SockResult.after, socket_pipe_rollback, modes_before_recv_from, Call.sets_mode,
          obj_ne_invalid]
        try (split <;> simp [modes_before_recv_from])
      · simp only [Option.some.injEq] at h
        subst h
        simp [modes_before_recv_from, Call.sets_mode]
    · obtain ⟨r1, hr1, rfl⟩ := Option.map_eq_some'.mp h
      have := ih (Handle.obj next) (next + 1) r1
        (some (Call.closesocket (Handle.obj next))) hr1
      simpa [SockResult.after, modes_before_recv_from, Call.sets_mode] using this

theorem create_socket_pipe_reads_blocking (o : SetupOutcomes) (its : List Iteration)
    (next : Nat) (r : SockResult) (h : create_socket_pipe o its next = some r) :
    ∀ m ∈ modes_before_recv r.calls, m = some 0 := by
  unfold create_socket_pipe at h
  unfold modes_before_recv
  repeat' split at h
  all_goals first
    | (simp only [Option.some.injEq] at h
       subst h
       simp [SockResult.after, socket_pipe_rollback, modes_before_recv_from, Call.sets_mode,
         obj_ne_invalid])
    | (obtain ⟨r1, hr1, rfl⟩ := Option.map_eq_some'.mp h
       have := accept_loop_reads_blocking _ _ _ _ _ _ r1
         (some (Call.ioctlsocket (Handle.obj next) 1)) hr1
       simpa [SockResult.after, modes_before_recv_from] using this)

theorem nonblocking_switches_rollback (prev : Option Call) (ls rd wr : SOCKET)
    (rv : apr_status_t) (next : Nat) :
    nonblocking_switches_from prev (socket_pipe_rollback ls rd wr rv next).calls = [] := by
  by_cases h1 : rd = INVALID_SOCKET <;> by_cases h2 : wr = INVALID_SOCKET <;>
    simp [socket_pipe_rollback, nonblocking_switches_from, h1, h2]

theorem accept_loop_switches (ls wr : SOCKET) (uid : Buf8) :
    ∀ (its : List Iteration) (rd : SOCKET) (next : Nat) (r : SockResult) (prev : Option Call),
      accept_loop ls wr uid rd next its = some r →
      ∀ sp ∈ nonblocking_switches_from prev r.calls,
        sp.2 = some (Call.recv sp.1 8) ∧
        ∃ pre m post, its = pre ++ m :: post ∧ (∀ it ∈ pre, it.idle ∨ it.stray uid) ∧
          m.yields_token uid ∧ sp.1 = Handle.obj (next + accepted pre) := by
  intro its
  induction its with
  | nil => intro rd next r prev h; simp [accept_loop] at h
  | cons it rest ih =>
    intro rd next r prev h sp hsp
    by_cases hidle : it.idle
    · rw [accept_loop_idle ls wr uid rd next it rest hidle] at h
      obtain ⟨r1, hr1, rfl⟩ := Option.map_eq_some'.mp h
      have hsp1 : ∃ p, sp ∈ nonblocking_switches_from p r1.calls := by
        by_cases e : it.select_ret = SOCKET_ERROR
        · exact ⟨_, by simpa [SockResult.after, nonblocking_switches_from, e] using hsp⟩
        · exact ⟨_, by simpa [SockResult.after, nonblocking_switches_from, e] using hsp⟩
      obtain ⟨p, hsp2⟩ := hsp1
      obtain ⟨g1, pre, m, post, g2, g3, g4, g5⟩ := ih rd next r1 p hr1 sp hsp2
      refine ⟨g1, it :: pre, m, post, by rw [g2]; rfl, ?_, g4, ?_⟩
      · intro x hx
        rcases List.mem_cons.mp hx with e | e
        · rw [e]; exact Or.inl hidle
        · exact g3 x e
      · rw [g5, accepted_cons_idle it pre hidle]
    have h1 : ¬ it.select_ret = SOCKET_ERROR := fun e => hidle (Or.inl e)
    have h2 : ¬ it.select_ret = 0 := fun e => hidle (Or.inr e)
    cases hacc : it.accept with
    | fail rv =>
      simp only [accept_loop, if_neg h1, if_neg h2, hacc, Option.some.injEq] at h
      subst h
      exfalso
      revert hsp
      by_cases hw : wr = INVALID_SOCKET <;>
        simp [SockResult.after, socket_pipe_rollback, nonblocking_switches_from, hw,
          obj_ne_invalid]
    | ok =>
      cases hv : it.ioctl_verify with
      | fail rv =>
        simp only [accept_loop, if_neg h1, if_neg h2, hacc, hv, Option.some.injEq] at h
        subst h
        exfalso
        revert hsp
        by_cases hw : wr = INVALID_SOCKET <;>
          simp [SockResult.after, socket_pipe_rollback, nonblocking_switches_from, hw,
            obj_ne_invalid]
      | ok =>
        by_cases h3 : it.recv_ret = SOCKET_ERROR
        · simp only [accept_loop, if_neg h1, if_neg h2, hacc, hv, if_pos h3,
            Option.some.injEq] at h
          subst h
          exfalso
          revert hsp
          by_cases hw : wr = INVALID_SOCKET <;>
            simp [SockResult.after, socket_pipe_rollback, nonblocking_switches_from, hw,
              obj_ne_invalid]
        by_cases h4 : it.recv_ret = 8 ∧ memcmp8_eq it.iid uid = true
        · have hy : it.yields_token uid :=
            ⟨hidle, hacc, hv, h4.1, by simpa [memcmp8_eq] using h4.2⟩
          have hsp' : sp = (Handle.obj next, some (Call.recv (Handle.obj next) 8)) := by
            cases hf : it.ioctl_final with
            | fail rv =>
              simp only [accept_loop, if_neg h1, if_neg h2, hacc, hv, if_neg h3, if_pos h4, hf,
                Option.some.injEq] at h
              subst h
              revert hsp
              by_cases hw : wr = INVALID_SOCKET <;>
                simp [SockResult.after, socket_pipe_rollback, nonblocking_switches_from, hw,
                  obj_ne_invalid, h4.1]
            | ok =>
              simp only [accept_loop, if_neg h1, if_neg h2, hacc, hv, if_neg h3, if_pos h4, hf,
                Option.some.injEq] at h
              subst h
              simpa [nonblocking_switches_from, h4.1] using hsp
          subst hsp'
          exact ⟨rfl, [], it, rest, rfl, by simp, hy, by simp [accepted]⟩
        · have hs : it.stray uid :=
            ⟨hidle, hacc, hv, h3, by simpa [memcmp8_eq] using h4⟩
          simp only [accept_loop, if_neg h1, if_neg h2, hacc, hv, if_neg h3, if_neg h4] at h
          obtain ⟨r1, hr1, rfl⟩ := Option.map_eq_some'.mp h
          have hsp2 : sp ∈ nonblocking_switches_from
              (some (Call.closesocket (Handle.obj next))) r1.calls := by
            simpa [SockResult.after, nonblocking_switches_from] using hsp
          obtain ⟨g1, pre, m, post, g2, g3, g4, g5⟩ :=
            ih (Handle.obj next) (next + 1) r1 _ hr1 sp hsp2
          refine ⟨g1, it :: pre, m, post, by rw [g2]; rfl, ?_, g4, ?_⟩
          · intro x hx
            rcases List.mem_cons.mp hx with e | e
            · rw [e]; exact Or.inr hs
            · exact g3 x e
          · rw [g5, accepted_cons_accept it pre hidle]
            congr 1
            omega

theorem create_socket_pipe_switches (o : SetupOutcomes) (its : List Iteration)
    (next : Nat) (r : SockResult) (h : create_socket_pipe o its next = some r) :
    ∀ sp ∈ nonblocking_switches r.calls,
      sp.1 = Handle.obj next ∨
      (sp.2 = some (Call.recv sp.1 8) ∧
        ∃ pre m post, its = pre ++ m :: post ∧ (∀ it ∈ pre, it.idle ∨ it.stray o.uid) ∧
          m.yields_token o.uid ∧ sp.1 = Handle.obj (next + 2 + accepted pre)) := by
  unfold create_socket_pipe at h
  unfold nonblocking_switches
  repeat' split at h
  all_goals first
    | (simp only [Option.some.injEq] at h
       subst h
       intro sp hsp
       left
       revert hsp
       simp [SockResult.after, socket_pipe_rollback, nonblocking_switches_from,
         obj_ne_invalid]
       done)
    | (simp only [Option.some.injEq] at h
       subst h
       intro sp hsp
       left
       revert hsp
       simp [SockResult.after, socket_pipe_rollback, nonblocking_switches_from,
         obj_ne_invalid]
       intro e
       rw [e])
    | (obtain ⟨r1, hr1, rfl⟩ := Option.map_eq_some'.mp h
       intro sp hsp
       have hsp2 : sp = (Handle.obj next,
             some (Call.send (Handle.obj (next + 1)) o.uid o.send_ret)) ∨
           sp ∈ nonblocking_switches_from (some (Call.ioctlsocket (Handle.obj next) 1))
             r1.calls := by
         simpa [SockResult.after, nonblocking_switches_from] using hsp
       rcases hsp2 with e | e
       · left
         rw [e]
       · right
         exact accept_loop_switches _ _ _ _ _ _ r1 _ hr1 sp e)

theorem switch_of_mode_set (s : SOCKET) (a : Nat) (ha : a ≠ 0) :
    ∀ (cs : List Call) (prev : Option Call), a ∈ modes_set s cs →
      ∃ p, (s, p) ∈ nonblocking_switches_from prev cs := by
  intro cs
  induction cs with
  | nil => intro prev h; simp [modes_set] at h
  | cons c cs ih =>
    intro prev h
    have hc : (∃ arg, c = Call.ioctlsocket s arg ∧ a = arg) ∨ a ∈ modes_set s cs := by
      unfold modes_set at h ⊢
      rw [List.filterMap_cons] at h
      cases c <;> simp only [Call.sets_mode] at h <;> try exact Or.inr h
      rename_i s1 arg
      by_cases e : s1 = s
      · simp only [e, if_true, List.mem_cons] at h
        rcases h with h | h
        · exact Or.inl ⟨arg, by rw [e], h⟩
        · exact Or.inr h
      · simp only [e, if_false] at h
        exact Or.inr h
    rcases hc with ⟨arg, rfl, rfl⟩ | hc
    · exact ⟨prev, by simp [nonblocking_switches_from, ha]⟩
    · obtain ⟨p, hp⟩ := ih (some c) hc
      exact ⟨p, by
        simp only [nonblocking_switches_from, List.mem_append]
        exact Or.inr hp⟩

theorem stray_not_token (uid : Buf8) (it : Iteration) (hs : it.stray uid)
    (ht : it.yields_token uid) : False :=
  hs.2.2.2.2 ⟨ht.2.2.2.1, ht.2.2.2.2⟩

theorem stray_pass_not_token_pass (uid : Buf8) (s m : Iteration) (post post2 : List Iteration)
    (hs : s.stray uid) (hm : m.yields_token uid) :
    ∀ (pre pre2 : List Iteration),
      pre ++ s :: post = pre2 ++ m :: post2 →
      (∀ it ∈ pre, it.idle ∨ it.stray uid) → (∀ it ∈ pre2, it.idle ∨ it.stray uid) →
      accepted pre = accepted pre2 → False
  | [], [], h, _, _, _ => by
    simp only [List.nil_append, List.cons.injEq] at h
    exact stray_not_token uid m (h.1 ▸ hs) hm
  | [], x :: pre2, h, _, _, hacc => by
    simp only [List.nil_append, List.cons_append, List.cons.injEq] at h
    have hx : ¬ x.idle := h.1 ▸ hs.1
    rw [accepted_cons_accept x pre2 hx] at hacc
    simp [accepted] at hacc
  | x :: pre, [], h, h1, _, _ => by
    simp only [List.nil_append, List.cons_append, List.cons.injEq] at h
    rcases h1 x (List.mem_cons_self _ _) with hi | hst
    · exact hm.1 (h.1 ▸ hi)
    · exact stray_not_token uid m (h.1 ▸ hst) hm
  | x :: pre, y :: pre2, h, h1, h2, hacc => by
    simp only [List.cons_append, List.cons.injEq] at h
    obtain ⟨hxy, ht⟩ := h
    subst hxy
    have hacc2 : accepted pre = accepted pre2 := by
      by_cases hi : x.idle
      · rw [accepted_cons_idle x pre hi, accepted_cons_idle x pre2 hi] at hacc
        exact hacc
      · rw [accepted_cons_accept x pre hi, accepted_cons_accept x pre2 hi] at hacc
        omega
    exact stray_pass_not_token_pass uid s m post post2 hs hm pre pre2 ht
      (fun it hit => h1 it (List.mem_cons_of_mem _ hit))
      (fun it hit => h2 it (List.mem_cons_of_mem _ hit)) hacc2

theorem create_socket_pipe_stray_modes (o : SetupOutcomes) (its : List Iteration)
    (next : Nat) (r : SockResult) (h : create_socket_pipe o its next = some r)
    (pre : List Iteration) (s : Iteration) (post : List Iteration)
    (hits : its = pre ++ s :: post) (hpre : ∀ it ∈ pre, it.idle ∨ it.stray o.uid)
    (hs : s.stray o.uid) :
    ∀ a ∈ modes_set (Handle.obj (next + 2 + accepted pre)) r.calls, a = 0 := by
  intro a ha
  by_contra hne
  obtain ⟨p, hp⟩ := switch_of_mode_set _ a hne r.calls none ha
  rcases create_socket_pipe_switches o its next r h _ hp with e | ⟨_, pre2, m, post2, e1, e2, e3, e4⟩
  · simp only [Handle.obj.injEq] at e
    omega
  · simp only [Handle.obj.injEq] at e4
    rw [hits] at e1
    exact stray_pass_not_token_pass o.uid s m post post2 hs e3 pre pre2 e1 hpre e2 (by omega)

/-- C9 (amended): in every run of `create_socket_pipe` that returns, every
`recv` is made right after an `ioctlsocket(.., FIONBIO, ..)` call on the same
accepted candidate whose argument is 0: the candidate is switched to blocking
mode before the 8-byte token is read from it, so that the read waits for the
token.  A switch to non-blocking mode (a non-zero argument) is applied only to
the listening socket and to a candidate whose token has matched: it then comes
right after the `recv` on that candidate that returned 8 bytes, in a pass that
yields exactly the token, every earlier pass being idle or a discarded stray.
The candidate of a stray pass only ever gets the argument 0. -/
theorem socket_pipe_reads_token_blocking (o : SetupOutcomes) (its : List Iteration)
    (next : Nat) (r : SockResult) (h : create_socket_pipe o its next = some r) :
    (∀ m ∈ modes_before_recv r.calls, m = some 0) ∧
    (∀ sp ∈ nonblocking_switches r.calls,
      sp.1 = Handle.obj next ∨
      (sp.2 = some (Call.recv sp.1 8) ∧
        ∃ pre m post, its = pre ++ m :: post ∧ (∀ it ∈ pre, it.idle ∨ it.stray o.uid) ∧
          m.yields_token o.uid ∧ sp.1 = Handle.obj (next + 2 + accepted pre))) ∧
    (∀ pre s post, its = pre ++ s :: post → (∀ it ∈ pre, it.idle ∨ it.stray o.uid) →
      s.stray o.uid →
      ∀ a ∈ modes_set (Handle.obj (next + 2 + accepted pre)) r.calls, a = 0) :=
  ⟨create_socket_pipe_reads_blocking o its next r h,
   create_socket_pipe_switches o its next r h,
   fun pre s post hits hpre hs =>
     create_socket_pipe_stray_modes o its next r h pre s post hits hpre hs⟩

/-- C1 at concrete outcomes: a stray candidate is discarded, `select` times out once,
then `accept` fails. -/
theorem socket_pipe_failure_releases_all_witness :
    create_socket_pipe ex_setup [ex_pass_stray, ex_pass_timeout, ex_pass_accept_fails] 0
      = some ex_result_accept_fails ∧
    ex_result_accept_fails.rv ≠ APR_SUCCESS ∧
    (ex_result_accept_fails.rd = INVALID_SOCKET ∧ ex_result_accept_fails.wr = INVALID_SOCKET ∧
      (closed ex_result_accept_fails.calls).Perm (opened ex_result_accept_fails.calls) ∧
      (opened ex_result_accept_fails.calls).Nodup) :=
  ⟨by decide, by decide,
    socket_pipe_failure_releases_all ex_setup
      [ex_pass_stray, ex_pass_timeout, ex_pass_accept_fails] 0 ex_result_accept_fails
      (by decide) (by decide)⟩

/-- C2 (as stated) fails: everything before the loop succeeds and the one
accepted candidate yields exactly the token, yet the routine returns an error,
both outputs are `INVALID_SOCKET` and the candidate has been closed, because
the `ioctlsocket` call that follows the match failed. -/
theorem socket_pipe_token_read_then_failure :
    ex_setup.succeeds ∧ ex_pass_token_mode_fails.yields_token ex_setup.uid ∧
    create_socket_pipe ex_setup ([] ++ ex_pass_token_mode_fails :: []) 0
      = some ex_result_mode_fails ∧
    ex_result_mode_fails.rv ≠ APR_SUCCESS ∧ ex_result_mode_fails.rd = INVALID_SOCKET ∧
    Handle.obj 2 ∈ closed ex_result_mode_fails.calls := by
  decide

/-- C2 (amended) at concrete outcomes: a stray candidate, a timeout of `select`,
then the candidate that delivers the token. -/
theorem socket_pipe_discards_strays_witness :
    ex_setup.succeeds ∧
    (∀ it ∈ [ex_pass_stray, ex_pass_timeout], it.idle ∨ it.stray ex_setup.uid) ∧
    ex_pass_token.yields_token ex_setup.uid ∧ ex_pass_token.ioctl_final = Outcome.ok ∧
    ∃ r, create_socket_pipe ex_setup ([ex_pass_stray, ex_pass_timeout] ++ ex_pass_token :: []) 0
        = some r ∧
      r.rv = APR_SUCCESS ∧ r.wr = Handle.obj (0 + 1) ∧
      r.rd = Handle.obj (0 + 2 + accepted [ex_pass_stray, ex_pass_timeout]) ∧
      opened r.calls
        = (List.range' 0 (accepted [ex_pass_stray, ex_pass_timeout] + 3)).map Handle.obj ∧
      closed r.calls
        = (List.range' (0 + 2) (accepted [ex_pass_stray, ex_pass_timeout])).map Handle.obj
          ++ [Handle.obj 0] ∧
      r.rd ∉ closed r.calls ∧ r.wr ∉ closed r.calls :=
  ⟨by decide, by decide, by decide, by decide,
    socket_pipe_discards_strays ex_setup [ex_pass_stray, ex_pass_timeout] ex_pass_token [] 0
      (by decide) (by decide) (by decide) (by decide)⟩

/-- C3 (amended) at concrete outcomes: a stray candidate, then the candidate that delivers
the token. -/
theorem socket_pipe_create_endpoints_witness :
    apr_file_socket_pipe_create 7 ex_setup [ex_pass_stray, ex_pass_token] 0 = some ex_pair ∧
    ex_setup.errors_reported ∧
    (∀ it ∈ [ex_pass_stray, ex_pass_token], it.errors_reported) ∧
    ex_pair.rv = APR_SUCCESS ∧
    ((ex_setup.errors_reported →
      (∀ it ∈ [ex_pass_stray, ex_pass_token], it.errors_reported) →
      ex_pair.rv = APR_SUCCESS →
      ∃ fin fout, ex_pair.in_ = some fin ∧ ex_pair.out_ = some fout ∧
        fin.ftype = APR_FILETYPE_SOCKET ∧ fout.ftype = APR_FILETYPE_SOCKET ∧
        fin.filehand ≠ INVALID_HANDLE_VALUE ∧ fout.filehand ≠ INVALID_HANDLE_VALUE ∧
        fin.pOverlapped = none ∧ fout.pOverlapped = none ∧
        fin.timeout = 0 ∧ modes_set fin.filehand ex_pair.calls = [0, 1] ∧
        (modes_set fin.filehand ex_pair.calls).getLast? = some 1 ∧
        fout.timeout = -1 ∧ modes_set fout.filehand ex_pair.calls = [] ∧
        registered ex_pair.calls = [(7, fin, CleanupFn.socket_pipe_cleanup),
                                    (7, fout, CleanupFn.socket_pipe_cleanup)]) ∧
    (ex_pair.rv ≠ APR_SUCCESS →
      ex_pair.in_ = none ∧ ex_pair.out_ = none ∧ registered ex_pair.calls = [])) :=
  ⟨by decide, by decide, by decide, by decide,
    socket_pipe_create_endpoints 7 ex_setup [ex_pass_stray, ex_pass_token] 0 ex_pair
      (by decide)⟩

/-- C4 at a concrete endpoint: the read end of `ex_pair`, closed twice. -/
theorem socket_pipe_close_twice_witness :
    ex_read_end.ftype = APR_FILETYPE_SOCKET ∧
    (apr_file_socket_pipe_close ex_read_end 0).2.2
      = [Call.shutdown_SD_BOTH (Handle.obj 3), Call.closesocket (Handle.obj 3),
         Call.apr_pool_cleanup_kill 7 { ex_read_end with filehand := INVALID_HANDLE_VALUE }
           CleanupFn.socket_pipe_cleanup] ∧
    (apr_file_socket_pipe_close (apr_file_socket_pipe_close ex_read_end 0).2.1 0).2.2
      = [Call.apr_pool_cleanup_kill 7 { ex_read_end with filehand := INVALID_HANDLE_VALUE }
           CleanupFn.socket_pipe_cleanup] ∧
    (apr_file_socket_pipe_close ex_read_end 0).1 = APR_SUCCESS ∧
    (apr_file_socket_pipe_close (apr_file_socket_pipe_close ex_read_end 0).2.1 0).1
      = APR_SUCCESS ∧
    closed (apr_file_socket_pipe_close (apr_file_socket_pipe_close ex_read_end 0).2.1 0).2.2
      = [] :=
  ⟨by decide, by decide, by decide,
    (socket_pipe_close_twice ex_read_end 0 0 (by decide)).1,
    (socket_pipe_close_twice ex_read_end 0 0 (by decide)).2.1,
    (socket_pipe_close_twice ex_read_end 0 0 (by decide)).2.2.2.2.1⟩

/-- C9 (amended) at concrete outcomes: two candidates are read from, each right
after being switched to blocking mode; the switches to non-blocking mode are
the one of the listening socket and the one of the second candidate, right
after its read of the token; the stray candidate only gets the argument 0. -/
theorem socket_pipe_reads_token_blocking_witness :
    create_socket_pipe ex_setup [ex_pass_stray, ex_pass_token] 0 = some ex_result_rendezvous ∧
    modes_before_recv ex_result_rendezvous.calls = [some 0, some 0] ∧
    nonblocking_switches ex_result_rendezvous.calls
      = [(Handle.obj 0, some (Call.send (Handle.obj 1) ex_token 8)),
         (Handle.obj 3, some (Call.recv (Handle.obj 3) 8))] ∧
    modes_set (Handle.obj 2) ex_result_rendezvous.calls = [0] ∧
    modes_set (Handle.obj 3) ex_result_rendezvous.calls = [0, 1] ∧
    (∀ m ∈ modes_before_recv ex_result_rendezvous.calls, m = some 0) ∧
    (∀ a ∈ modes_set (Handle.obj (0 + 2 + accepted [])) ex_result_rendezvous.calls, a = 0) :=
  ⟨by decide, by decide, by decide, by decide, by decide,
    (socket_pipe_reads_token_blocking ex_setup [ex_pass_stray, ex_pass_token] 0
      ex_result_rendezvous (by decide)).1,
    (socket_pipe_reads_token_blocking ex_setup [ex_pass_stray, ex_pass_token] 0
      ex_result_rendezvous (by decide)).2.2 [] ex_pass_stray [ex_pass_token] rfl
      (by decide) (by decide)⟩

/-- C9 (as stated) fails: in this run each of the two `recv` calls comes right
after an `ioctlsocket(.., FIONBIO, ..)` call on the same candidate whose
argument is 0, the blocking mode, not a non-zero one. -/
theorem socket_pipe_read_not_nonblocking :
    create_socket_pipe ex_setup [ex_pass_stray, ex_pass_token] 0 = some ex_result_rendezvous ∧
    modes_before_recv ex_result_rendezvous.calls = [some 0, some 0] ∧
    ¬ (∀ m ∈ modes_before_recv ex_result_rendezvous.calls, ∃ a, m = some a ∧ a ≠ 0) := by
  decide

/-- C3 (as stated) fails: `bind` fails and the error translation reports
`APR_SUCCESS`, so `create_socket_pipe` returns success from its cleanup path
and `apr_file_socket_pipe_create` returns success with two endpoints that hold
the invalid handle and are registered for cleanup. -/
theorem socket_pipe_create_unreported_failure :
    apr_file_socket_pipe_create 7 ex_setup_bind_unreported [] 0 = some ex_pair_unreported ∧
    ex_pair_unreported.rv = APR_SUCCESS ∧
    ex_pair_unreported.in_ = some ex_read_end_invalid ∧
    ex_pair_unreported.out_ = some ex_write_end_invalid ∧
    ex_read_end_invalid.filehand = INVALID_HANDLE_VALUE ∧
    ex_write_end_invalid.filehand = INVALID_HANDLE_VALUE ∧
    registered ex_pair_unreported.calls
      = [(7, ex_read_end_invalid, CleanupFn.socket_pipe_cleanup),
         (7, ex_write_end_invalid, CleanupFn.socket_pipe_cleanup)] := by
  decide

/-- C6 (amended) at concrete outcomes: mode `APR_READ_BLOCK` with the client
open of the write end failing, and mode `APR_FULL_BLOCK` with every call
succeeding. -/
theorem pipe_create_all_or_nothing_witness :
    ex_pipe_outcomes_open_fails.errors_reported ∧
    (file_pipe_create APR_READ_BLOCK 1 2 0 ex_pipe_outcomes_open_fails 0).rv = 720005 ∧
    registered (file_pipe_create APR_READ_BLOCK 1 2 0 ex_pipe_outcomes_open_fails 0).calls
      = [] ∧
    cleaned (file_pipe_create APR_READ_BLOCK 1 2 0 ex_pipe_outcomes_open_fails 0).calls
      = [(file_pipe_create APR_READ_BLOCK 1 2 0 ex_pipe_outcomes_open_fails 0).out_,
         (file_pipe_create APR_READ_BLOCK 1 2 0 ex_pipe_outcomes_open_fails 0).in_] ∧
    (file_pipe_create APR_READ_BLOCK 1 2 0 ex_pipe_outcomes_open_fails 0).out_
      ≠ (file_pipe_create APR_READ_BLOCK 1 2 0 ex_pipe_outcomes_open_fails 0).in_ ∧
    ex_pipe_outcomes.errors_reported ∧
    (file_pipe_create APR_FULL_BLOCK 1 2 0 ex_pipe_outcomes 0).rv = APR_SUCCESS ∧
    (file_pipe_create APR_FULL_BLOCK 1 2 0 ex_pipe_outcomes 0).in_.filehand = Handle.obj 0 ∧
    (file_pipe_create APR_FULL_BLOCK 1 2 0 ex_pipe_outcomes 0).out_.filehand = Handle.obj 1 ∧
    registered (file_pipe_create APR_FULL_BLOCK 1 2 0 ex_pipe_outcomes 0).calls
      = [(1, (file_pipe_create APR_FULL_BLOCK 1 2 0 ex_pipe_outcomes 0).in_,
            CleanupFn.file_cleanup),
         (2, (file_pipe_create APR_FULL_BLOCK 1 2 0 ex_pipe_outcomes 0).out_,
            CleanupFn.file_cleanup)] :=
  ⟨by decide,
    ((pipe_create_all_or_nothing APR_READ_BLOCK 1 2 0 ex_pipe_outcomes_open_fails 0 _
      rfl).2.2.2.2.2.1 rfl rfl rfl 720005 rfl).1,
    (pipe_create_all_or_nothing APR_READ_BLOCK 1 2 0 ex_pipe_outcomes_open_fails 0 _
      rfl).2.1 (by decide),
    ((pipe_create_all_or_nothing APR_READ_BLOCK 1 2 0 ex_pipe_outcomes_open_fails 0 _
      rfl).2.2.2.2.2.1 rfl rfl rfl 720005 rfl).2.1,
    ((pipe_create_all_or_nothing APR_READ_BLOCK 1 2 0 ex_pipe_outcomes_open_fails 0 _
      rfl).2.2.2.2.2.1 rfl rfl rfl 720005 rfl).2.2.1,
    by decide, by decide, by decide, by decide,
    ((pipe_create_all_or_nothing APR_FULL_BLOCK 1 2 0 ex_pipe_outcomes 0 _
      rfl).1 (by decide) (by decide)).2.1⟩

/-- C6 (as stated) fails: `CreateNamedPipe` fails and the error translation
reports `APR_SUCCESS`, so `file_pipe_create` returns success although the read
end holds `INVALID_HANDLE_VALUE` and the write end was never opened; nothing
is registered for cleanup. -/
theorem pipe_create_unreported_failure_handles :
    (file_pipe_create APR_FULL_BLOCK 1 2 0 ex_pipe_outcomes_unreported 0).rv = APR_SUCCESS ∧
    (file_pipe_create APR_FULL_BLOCK 1 2 0 ex_pipe_outcomes_unreported 0).in_.filehand
      = INVALID_HANDLE_VALUE ∧
    (file_pipe_create APR_FULL_BLOCK 1 2 0 ex_pipe_outcomes_unreported 0).out_.filehand
      = Handle.NULL ∧
    registered (file_pipe_create APR_FULL_BLOCK 1 2 0 ex_pipe_outcomes_unreported 0).calls
      = [] := by
  decide

end AprPipe
